import Mathlib

/-!
# BikeDataOverlay: the FTMS / Heart-Rate wire-frame decoder, the device classifier and
the device session

A shallow embedding of `qt-app/src/bluetooth/ftmsprotocol.{h,cpp}`, of
`BluetoothManager::isFitnessDevice` and the discovery methods of `BluetoothManager`
(`qt-app/src/bluetooth/bluetoothmanager.cpp`) and of `FitnessDevice`
(`qt-app/src/bluetooth/fitnessdevice.{h,cpp}`).

Modelling conventions

* A `QByteArray` is a list of bytes; every read in the source goes through
  `static_cast<quint8>(data[i])`, so a byte is a value in `0..255`.
* `data[i]` with `i` outside the buffer is undefined behaviour in the source.  The
  embedding makes it observable: a decoder run is an `Rd` value, which is either
  `Rd.ok val guardHits` or `Rd.outOfBounds i`.  `guardHits` counts how often
  `readUInt16` left through its own `offset + 2 > data.size()` guard.
* `int offset` is a natural number (it starts at 0 and only grows by field widths).
* `double` fields hold exact rationals: `speedRaw / 100.0` is the rational
  `speedRaw / 100` (the source stores its nearest double); the other two `double`
  fields only ever receive integers below `2^24`.
-/

namespace BikeDataOverlay

/-! ## Byte buffers and instrumented reads -/

/-- One element of a `QByteArray`, as seen through `static_cast<quint8>`. -/
abbrev Byte := Fin 256

/-- The `QByteArray` handed to the decoders. -/
abbrev QByteArray := List Byte

/-- Outcome of a decoder computation: a value together with the number of times
`readUInt16` returned through its size guard, or an access outside the buffer. -/
inductive Rd (α : Type) where
  | ok (val : α) (guardHits : Nat)
  | outOfBounds (index : Nat)
deriving DecidableEq, Repr

namespace Rd

/-- Sequencing: the first out-of-bounds access aborts, guard hits add up. -/
def andThen {α β : Type} (x : Rd α) (f : α → Rd β) : Rd β :=
  match x with
  | ok a g =>
    match f a with
    | ok b g2 => ok b (g + g2)
    | outOfBounds i => outOfBounds i
  | outOfBounds i => outOfBounds i

instance : Monad Rd where
  pure a := ok a 0
  bind := andThen

end Rd

/-- The expression `static_cast<quint8>(data[i])`. -/
def byteAt (data : QByteArray) (i : Nat) : Rd Nat :=
  match data.get? i with
  | some b => Rd.ok b.val 0
  | none => Rd.outOfBounds i

/-- `FTMSProtocol::readUInt16` (ftmsprotocol.cpp:175-183). -/
def readUInt16 (data : QByteArray) (offset : Nat) : Rd Nat :=
  if offset + 2 > data.length then
    Rd.ok 0 1
  else do
    let lo ← byteAt data offset
    let hi ← byteAt data (offset + 1)
    pure (lo ||| (hi <<< 8))

/-- The conversion `static_cast<qint16>(quint16)`: two's complement reinterpretation. -/
def toQInt16 (v : Nat) : Int :=
  if v % 65536 < 32768 then (v % 65536 : Nat) else ((v % 65536 : Nat) : Int) - 65536

/-- `FTMSProtocol::readSInt16` (ftmsprotocol.cpp:185-188). -/
def readSInt16 (data : QByteArray) (offset : Nat) : Rd Int := do
  let v ← readUInt16 data offset
  pure (toQInt16 v)

/-! ## Data model (ftmsprotocol.h) -/

/-- `FTMSProtocol::TrainerData` with its in-class default initialisers. -/
structure TrainerData where
  speed : ℚ := 0
  cadence : Int := 0
  power : Int := 0
  heartRate : Int := 0
  distance : ℚ := 0
  resistanceLevel : Int := 0
  expendedEnergy : ℚ := 0
  elapsedTime : Nat := 0
  isDataValid : Bool := false
deriving DecidableEq, Repr

/-! The enumerators of `enum class IndoorBikeDataFlags : quint16` (ftmsprotocol.h:29-43).
The header declares the enumeration inside `namespace HRS`; the decoder refers to it as
`FTMS::IndoorBikeDataFlags`. -/
namespace IndoorBikeDataFlags

def MoreData : Nat := 0x0001
def AverageSpeedPresent : Nat := 0x0002
def InstantaneousCadencePresent : Nat := 0x0004
def AverageCadencePresent : Nat := 0x0008
def TotalDistancePresent : Nat := 0x0010
def ResistanceLevelPresent : Nat := 0x0020
def InstantaneousPowerPresent : Nat := 0x0040
def AveragePowerPresent : Nat := 0x0080
def ExpendedEnergyPresent : Nat := 0x0100
def HeartRatePresent : Nat := 0x0200
def MetabolicEquivalentPresent : Nat := 0x0400
def ElapsedTimePresent : Nat := 0x0800
def RemainingTimePresent : Nat := 0x1000

end IndoorBikeDataFlags

/-! ## `FTMSProtocol::parseIndoorBikeData` (ftmsprotocol.cpp:9-126) -/

/-- The two locals the decoder threads through its blocks: `result` and `offset`. -/
structure Cursor where
  result : TrainerData
  offset : Nat
deriving DecidableEq, Repr

open IndoorBikeDataFlags

/-- Lines 24-29: instantaneous speed, always present. -/
def speedBlock (data : QByteArray) (c : Cursor) : Rd Cursor :=
  if c.offset + 2 ≤ data.length then do
    let speedRaw ← readUInt16 data c.offset
    pure { result := { c.result with speed := (speedRaw : ℚ) / 100 }, offset := c.offset + 2 }
  else pure c

/-- Lines 31-36: average speed, skipped. -/
def averageSpeedBlock (data : QByteArray) (flags : Nat) (c : Cursor) : Rd Cursor :=
  if flags &&& AverageSpeedPresent ≠ 0 then
    if c.offset + 2 ≤ data.length then
      pure { c with offset := c.offset + 2 }
    else pure c
  else pure c

/-- Lines 38-45: instantaneous cadence. -/
def cadenceBlock (data : QByteArray) (flags : Nat) (c : Cursor) : Rd Cursor :=
  if flags &&& InstantaneousCadencePresent ≠ 0 then
    if c.offset + 2 ≤ data.length then do
      let cadenceRaw ← readUInt16 data c.offset
      pure { result := { c.result with cadence := ((cadenceRaw / 2 : Nat) : Int) },
             offset := c.offset + 2 }
    else pure c
  else pure c

/-- Lines 47-52: average cadence, skipped. -/
def averageCadenceBlock (data : QByteArray) (flags : Nat) (c : Cursor) : Rd Cursor :=
  if flags &&& AverageCadencePresent ≠ 0 then
    if c.offset + 2 ≤ data.length then
      pure { c with offset := c.offset + 2 }
    else pure c
  else pure c

/-- Lines 54-64: total distance, three bytes. -/
def distanceBlock (data : QByteArray) (flags : Nat) (c : Cursor) : Rd Cursor :=
  if flags &&& TotalDistancePresent ≠ 0 then
    if c.offset + 3 ≤ data.length then do
      let b0 ← byteAt data c.offset
      let b1 ← byteAt data (c.offset + 1)
      let b2 ← byteAt data (c.offset + 2)
      let distanceRaw : Nat := b0 ||| (b1 <<< 8) ||| (b2 <<< 16)
      pure { result := { c.result with distance := (distanceRaw : ℚ) },
             offset := c.offset + 3 }
    else pure c
  else pure c

/-- Lines 66-73: resistance level. -/
def resistanceBlock (data : QByteArray) (flags : Nat) (c : Cursor) : Rd Cursor :=
  if flags &&& ResistanceLevelPresent ≠ 0 then
    if c.offset + 2 ≤ data.length then do
      let resistanceRaw ← readSInt16 data c.offset
      pure { result := { c.result with resistanceLevel := resistanceRaw },
             offset := c.offset + 2 }
    else pure c
  else pure c

/-- Lines 75-82: instantaneous power. -/
def powerBlock (data : QByteArray) (flags : Nat) (c : Cursor) : Rd Cursor :=
  if flags &&& InstantaneousPowerPresent ≠ 0 then
    if c.offset + 2 ≤ data.length then do
      let powerRaw ← readSInt16 data c.offset
      pure { result := { c.result with power := powerRaw }, offset := c.offset + 2 }
    else pure c
  else pure c

/-- Lines 84-89: average power, skipped. -/
def averagePowerBlock (data : QByteArray) (flags : Nat) (c : Cursor) : Rd Cursor :=
  if flags &&& AveragePowerPresent ≠ 0 then
    if c.offset + 2 ≤ data.length then
      pure { c with offset := c.offset + 2 }
    else pure c
  else pure c

/-- Lines 91-99: expended energy; the energy-per-hour word is read and dropped. -/
def energyBlock (data : QByteArray) (flags : Nat) (c : Cursor) : Rd Cursor :=
  if flags &&& ExpendedEnergyPresent ≠ 0 then
    if c.offset + 4 ≤ data.length then do
      let totalEnergy ← readUInt16 data c.offset
      let _energyPerHour ← readUInt16 data (c.offset + 2)
      pure { result := { c.result with expendedEnergy := (totalEnergy : ℚ) },
             offset := c.offset + 4 }
    else pure c
  else pure c

/-- Lines 101-107: heart rate, one byte. -/
def heartRateBlock (data : QByteArray) (flags : Nat) (c : Cursor) : Rd Cursor :=
  if flags &&& HeartRatePresent ≠ 0 then
    if c.offset + 1 ≤ data.length then do
      let hr ← byteAt data c.offset
      pure { result := { c.result with heartRate := (hr : Int) }, offset := c.offset + 1 }
    else pure c
  else pure c

/-- Lines 109-114: metabolic equivalent, skipped. -/
def metabolicEquivalentBlock (data : QByteArray) (flags : Nat) (c : Cursor) : Rd Cursor :=
  if flags &&& MetabolicEquivalentPresent ≠ 0 then
    if c.offset + 1 ≤ data.length then
      pure { c with offset := c.offset + 1 }
    else pure c
  else pure c

/-- Lines 116-122: elapsed time. -/
def elapsedTimeBlock (data : QByteArray) (flags : Nat) (c : Cursor) : Rd Cursor :=
  if flags &&& ElapsedTimePresent ≠ 0 then
    if c.offset + 2 ≤ data.length then do
      let t ← readUInt16 data c.offset
      pure { result := { c.result with elapsedTime := t }, offset := c.offset + 2 }
    else pure c
  else pure c

/-- `FTMSProtocol::parseIndoorBikeData`, instrumented. -/
def parseIndoorBikeData (data : QByteArray) : Rd TrainerData :=
  let result : TrainerData := {}
  if data.length < 4 then
    pure result
  else do
    let offset := 0
    let flags ← readUInt16 data offset
    let offset := offset + 2
    let c ← speedBlock data { result := result, offset := offset }
    let c ← averageSpeedBlock data flags c
    let c ← cadenceBlock data flags c
    let c ← averageCadenceBlock data flags c
    let c ← distanceBlock data flags c
    let c ← resistanceBlock data flags c
    let c ← powerBlock data flags c
    let c ← averagePowerBlock data flags c
    let c ← energyBlock data flags c
    let c ← heartRateBlock data flags c
    let c ← metabolicEquivalentBlock data flags c
    let c ← elapsedTimeBlock data flags c
    pure { c.result with isDataValid := true }

/-! ## `FTMSProtocol::parseHeartRateData` (ftmsprotocol.cpp:128-163) -/

/-- `FTMSProtocol::parseHeartRateData`, instrumented. -/
def parseHeartRateData (data : QByteArray) : Rd TrainerData :=
  let result : TrainerData := {}
  if data.length < 2 then
    pure result
  else do
    let offset := 0
    let flags ← byteAt data offset
    let offset := offset + 1
    let is16Bit : Bool := flags &&& 0x01 ≠ 0
    let result ←
      if is16Bit then
        if offset + 2 ≤ data.length then do
          let hr ← readUInt16 data offset
          pure { result with heartRate := (hr : Int) }
        else pure result
      else
        if offset + 1 ≤ data.length then do
          let hr ← byteAt data offset
          pure { result with heartRate := (hr : Int) }
        else pure result
    pure { result with isDataValid := true }

/-! ## The decoder as a sequence of blocks

`parseIndoorBikeData` runs its eleven optional blocks one after the other.  The list
below names them in source order, so that the cursor the decoder holds when it
reaches a given block can be spoken about. -/

/-- The eleven optional fields of an Indoor Bike Data frame, in the order of the source. -/
inductive Field where
  | averageSpeed
  | cadence
  | averageCadence
  | distance
  | resistance
  | power
  | averagePower
  | energy
  | heartRate
  | metabolicEquivalent
  | elapsedTime
deriving DecidableEq, Repr

namespace Field

/-- The source order of the optional blocks (ftmsprotocol.cpp:31-122). -/
def order : List Field :=
  [averageSpeed, cadence, averageCadence, distance, resistance, power, averagePower,
   energy, heartRate, metabolicEquivalent, elapsedTime]

/-- The block of the source that handles the field. -/
def block (data : QByteArray) (flags : Nat) : Field → Cursor → Rd Cursor
  | averageSpeed => averageSpeedBlock data flags
  | cadence => cadenceBlock data flags
  | averageCadence => averageCadenceBlock data flags
  | distance => distanceBlock data flags
  | resistance => resistanceBlock data flags
  | power => powerBlock data flags
  | averagePower => averagePowerBlock data flags
  | energy => energyBlock data flags
  | heartRate => heartRateBlock data flags
  | metabolicEquivalent => metabolicEquivalentBlock data flags
  | elapsedTime => elapsedTimeBlock data flags

/-- The enumerator the block of the field tests (ftmsprotocol.h:31-41). -/
def mask : Field → Nat
  | averageSpeed => AverageSpeedPresent
  | cadence => InstantaneousCadencePresent
  | averageCadence => AverageCadencePresent
  | distance => TotalDistancePresent
  | resistance => ResistanceLevelPresent
  | power => InstantaneousPowerPresent
  | averagePower => AveragePowerPresent
  | energy => ExpendedEnergyPresent
  | heartRate => HeartRatePresent
  | metabolicEquivalent => MetabolicEquivalentPresent
  | elapsedTime => ElapsedTimePresent

/-- Bit number of the field in the 16-bit flags word: bit 1 is average speed, bit 11 is
elapsed time. -/
def bit : Field → Nat
  | averageSpeed => 1
  | cadence => 2
  | averageCadence => 3
  | distance => 4
  | resistance => 5
  | power => 6
  | averagePower => 7
  | energy => 8
  | heartRate => 9
  | metabolicEquivalent => 10
  | elapsedTime => 11

/-- Width in bytes of the field, per the field list of the specification (section 4.1):
average speed 2, cadence 2, average cadence 2, distance 3, resistance 2, power 2, average
power 2, energy 4, heart rate 1, metabolic equivalent 1, elapsed time 2. -/
def width : Field → Nat
  | averageSpeed => 2
  | cadence => 2
  | averageCadence => 2
  | distance => 3
  | resistance => 2
  | power => 2
  | averagePower => 2
  | energy => 4
  | heartRate => 1
  | metabolicEquivalent => 1
  | elapsedTime => 2

/-- The member of `TrainerData` through which the field is surfaced, if any. -/
def surfaced (r : TrainerData) : Field → Option ℚ
  | cadence => some (r.cadence : ℚ)
  | distance => some r.distance
  | resistance => some (r.resistanceLevel : ℚ)
  | power => some (r.power : ℚ)
  | energy => some r.expendedEnergy
  | heartRate => some (r.heartRate : ℚ)
  | elapsedTime => some (r.elapsedTime : ℚ)
  | averageSpeed => none
  | averageCadence => none
  | averagePower => none
  | metabolicEquivalent => none

/-- The flags word announces the field. -/
def announced (flags : Nat) (f : Field) : Bool := flags.testBit f.bit

/-- The fields that come before `f` in the fixed order. -/
def preceding (f : Field) : List Field := order.takeWhile (fun g => g ≠ f)

end Field

/-- Runs blocks one after the other. -/
def runBlocks : List (Cursor → Rd Cursor) → Cursor → Rd Cursor
  | [], c => pure c
  | b :: bs, c => b c >>= runBlocks bs

/-- The cursor the decoder holds after lines 18-29 and the blocks of `fields`. -/
def cursorAfter (data : QByteArray) (fields : List Field) : Rd Cursor := do
  let flags ← readUInt16 data 0
  let c ← speedBlock data { result := {}, offset := 2 }
  runBlocks (fields.map (Field.block data flags)) c

/-- The cursor the decoder holds when it reaches the block of `f`. -/
def cursorReaching (data : QByteArray) (f : Field) : Rd Cursor :=
  cursorAfter data f.preceding

/-! ## Reference reads and the field-table decoder of the specification -/

/-- Byte `i` of the buffer as a number, `0` past the end. -/
def u8 (data : QByteArray) (i : Nat) : Nat := (data.getD i 0).val

/-- The unsigned 16-bit little-endian value at `off`. -/
def uint16LE (data : QByteArray) (off : Nat) : Nat := u8 data off + 256 * u8 data (off + 1)

/-- The unsigned 24-bit little-endian value at `off`. -/
def uint24LE (data : QByteArray) (off : Nat) : Nat :=
  u8 data off + 256 * u8 data (off + 1) + 65536 * u8 data (off + 2)

/-- The two's-complement reading of the 16-bit little-endian word at `off`. -/
def int16LE (data : QByteArray) (off : Nat) : Int :=
  if u8 data (off + 1) < 128 then (uint16LE data off : Int) else (uint16LE data off : Int) - 65536

/-- Bytes a flagged field occupies, none when it is not flagged. -/
def Field.need (flags : Nat) (f : Field) : Nat := if f.announced flags then f.width else 0

/-- Offset of a field per the specification: 4 plus the widths of the flagged fields
that precede it in the fixed order. -/
def Field.offsetIn (flags : Nat) (f : Field) : Nat :=
  4 + (f.preceding.map (Field.need flags)).sum

/-- Length of a frame that holds every field its flags word announces. -/
def frameLength (flags : Nat) : Nat := 4 + (Field.order.map (Field.need flags)).sum

/-- The field-table decoder of the specification (section 4.1): every flagged field is
read at its table offset, every other surfaced field is 0. -/
def referenceDecode (data : QByteArray) : TrainerData :=
  let flags := uint16LE data 0
  { speed := (uint16LE data 2 : ℚ) / 100
    cadence :=
      if Field.cadence.announced flags then
        ((uint16LE data (Field.cadence.offsetIn flags) / 2 : Nat) : Int)
      else 0
    distance :=
      if Field.distance.announced flags then
        ((uint24LE data (Field.distance.offsetIn flags) : Nat) : ℚ)
      else 0
    resistanceLevel :=
      if Field.resistance.announced flags then int16LE data (Field.resistance.offsetIn flags)
      else 0
    power :=
      if Field.power.announced flags then int16LE data (Field.power.offsetIn flags) else 0
    expendedEnergy :=
      if Field.energy.announced flags then
        ((uint16LE data (Field.energy.offsetIn flags) : Nat) : ℚ)
      else 0
    heartRate :=
      if Field.heartRate.announced flags then
        ((u8 data (Field.heartRate.offsetIn flags) : Nat) : Int)
      else 0
    elapsedTime :=
      if Field.elapsedTime.announced flags then
        uint16LE data (Field.elapsedTime.offsetIn flags)
      else 0
    isDataValid := true }

/-! ## The bytes the decoder keeps -/

/-- Leading bytes of a field that its block stores into the sample: all of a surfaced
field, the total-energy word of the energy field, none of a skipped field. -/
def Field.kept : Field → Nat
  | .cadence => 2
  | .distance => 3
  | .resistance => 2
  | .power => 2
  | .energy => 2
  | .heartRate => 1
  | .elapsedTime => 2
  | .averageSpeed => 0
  | .averageCadence => 0
  | .averagePower => 0
  | .metabolicEquivalent => 0

/-- The byte indices the block of `f` stores from on this buffer: those at the running
offset when the field is flagged and fits, none otherwise. -/
def storedAt (data : QByteArray) (f : Field) : List Nat :=
  match cursorReaching data f with
  | Rd.ok c _ =>
    if f.announced (uint16LE data 0) = true ∧ c.offset + f.width ≤ data.length then
      List.range' c.offset f.kept
    else []
  | Rd.outOfBounds _ => []

/-! ## Identifier classification (ftmsprotocol.cpp:165-173)

A `QString` is the sequence of its UTF-16 code units.  The two Qt operations the source
relies on are modelled on Basic Latin text: the upper-case letters `A`..`Z` fold to
`a`..`z` and every other code unit is its own fold.  (Qt also folds letters outside
Basic Latin; none of those folds to a hexadecimal digit, a hyphen or a brace.) -/

/-- A `QString`: its UTF-16 code units. -/
abbrev QString := List Nat

namespace QString

/-- The `QString` a narrow string literal of the source denotes. -/
def ofLiteral (s : String) : QString := s.toList.map Char.toNat

/-- Case folding of one code unit. -/
def foldCase (u : Nat) : Nat := if 65 ≤ u ∧ u ≤ 90 then u + 32 else u

/-- Model of `QString::compare(other, Qt::CaseInsensitive)`: zero when the two strings
have the same folded code units, otherwise the first difference (or which one ended). -/
def compareCaseInsensitive : QString → QString → Int
  | [], [] => 0
  | [], _ :: _ => -1
  | _ :: _, [] => 1
  | a :: s, b :: t =>
    if foldCase a = foldCase b then compareCaseInsensitive s t
    else (foldCase a : Int) - (foldCase b : Int)

/-- Model of `QString::toLower()`. -/
def toLower (s : QString) : QString := s.map foldCase

/-- Model of `QString::startsWith(k)` (case sensitive). -/
def startsWith : QString → QString → Bool
  | _, [] => true
  | [], _ :: _ => false
  | a :: s, b :: k => a == b && startsWith s k

/-- Model of `QString::contains(k)` (case sensitive): `k` occurs as a substring. -/
def contains : QString → QString → Bool
  | [], k => startsWith [] k
  | a :: s, k => startsWith (a :: s) k || contains s k

end QString

namespace FTMS

/-- `FTMS::SERVICE_UUID` (ftmsprotocol.h:9). -/
def SERVICE_UUID : QString := QString.ofLiteral "00001826-0000-1000-8000-00805f9b34fb"

/-- `FTMS::INDOOR_BIKE_DATA_UUID` (ftmsprotocol.h:12). -/
def INDOOR_BIKE_DATA_UUID : QString := QString.ofLiteral "00002AD2-0000-1000-8000-00805f9b34fb"

end FTMS

namespace HRS

/-- `HRS::SERVICE_UUID` (ftmsprotocol.h:21). -/
def SERVICE_UUID : QString := QString.ofLiteral "0000180d-0000-1000-8000-00805f9b34fb"

/-- `HRS::HEART_RATE_MEASUREMENT_UUID` (ftmsprotocol.h:24). -/
def HEART_RATE_MEASUREMENT_UUID : QString :=
  QString.ofLiteral "00002a37-0000-1000-8000-00805f9b34fb"

end HRS

/-- `FTMSProtocol::isValidFTMSService`. -/
def isValidFTMSService (serviceUuid : QString) : Bool :=
  serviceUuid.compareCaseInsensitive FTMS.SERVICE_UUID == 0

/-- `FTMSProtocol::isValidHeartRateService`. -/
def isValidHeartRateService (serviceUuid : QString) : Bool :=
  serviceUuid.compareCaseInsensitive HRS.SERVICE_UUID == 0

/-- Two code units are the same letter up to case: equal, or one is an upper-case
Basic Latin letter and the other its lower-case form. -/
def SameLetter (a b : Nat) : Prop :=
  a = b ∨ (65 ≤ a ∧ a ≤ 90 ∧ b = a + 32) ∨ (65 ≤ b ∧ b ≤ 90 ∧ a = b + 32)

/-- Two strings are equal up to letter case: same length, the same letter at every
position. -/
def EqUpToCase (s t : QString) : Prop := List.Forall₂ SameLetter s t

/-! ## Device classification (bluetoothmanager.cpp:149-180) -/

/-- `QBluetoothUuid`: a 128-bit identifier. -/
structure QBluetoothUuid where
  value : Nat
deriving DecidableEq, Repr

/-- One lower-case hexadecimal digit as a code unit. -/
def hexDigit (n : Nat) : Nat := if n < 10 then 48 + n else 87 + n

/-- The `count` low hexadecimal digits of `v`, most significant first. -/
def hexDigits (v : Nat) : Nat → List Nat
  | 0 => []
  | count + 1 => hexDigits (v / 16) count ++ [hexDigit (v % 16)]

/-- Model of `QUuid::toString()` with its default format: five lower-case hexadecimal
groups separated by hyphens and enclosed in curly braces. -/
def QBluetoothUuid.toString (uuid : QBluetoothUuid) : QString :=
  let h := hexDigits uuid.value 32
  [123] ++ h.take 8 ++ [45] ++ (h.drop 8).take 4 ++ [45] ++ (h.drop 12).take 4 ++ [45]
    ++ (h.drop 16).take 4 ++ [45] ++ h.drop 20 ++ [125]

/-- `QBluetoothDeviceInfo::LowEnergyCoreConfiguration`. -/
def LowEnergyCoreConfiguration : Nat := 0x01

/-- The part of `QBluetoothDeviceInfo` the classifier reads. -/
structure QBluetoothDeviceInfo where
  address : Nat
  name : QString
  coreConfigurations : Nat
  serviceUuids : List QBluetoothUuid
deriving DecidableEq, Repr

/-- The list `fitnessKeywords` of `isFitnessDevice` (bluetoothmanager.cpp:167-171). -/
def fitnessKeywords : List QString :=
  ["trainer", "bike", "zwift", "wahoo", "tacx", "elite",
   "kickr", "neo", "flux", "direto", "cycleops", "kinetic",
   "heart", "hr", "polar", "garmin", "chest", "rhythm"].map QString.ofLiteral

/-- `BluetoothManager::isFitnessDevice`. -/
def isFitnessDevice (device : QBluetoothDeviceInfo) : Bool :=
  if device.coreConfigurations &&& LowEnergyCoreConfiguration = 0 then
    false
  else if device.serviceUuids.any (fun uuid =>
      isValidFTMSService uuid.toString || isValidHeartRateService uuid.toString) then
    true
  else
    let deviceName := device.name.toLower
    if fitnessKeywords.any (fun keyword => deviceName.contains keyword) then
      true
    else
      false

/-! ## The device session (fitnessdevice.h, fitnessdevice.cpp)

`FitnessDevice` is a `QObject` driven by the callbacks of the link.  The embedding is
a state record with two logs: the signals the session has emitted and the calls it has
made on the link (`QLowEnergyController`) and on the service object
(`QLowEnergyService`).  What the link answers (the services it found, the service
object it hands out, the characteristics of that service) comes in as arguments of the
callbacks.  A call on the link returns before the link answers: the answer is a later
callback (`onDeviceConnected`, `onDeviceDisconnected`, ...).  A callback that
dereferences a null `m_controller` or `m_ftmsService` yields `none`.  The member `m_heartRateService` and the method
`setupHeartRateService` are declared in the header and used nowhere. -/

/-- `FitnessDevice::ConnectionState` (fitnessdevice.h:14-19). -/
inductive ConnectionState where
  | Disconnected
  | Connecting
  | Connected
  | Error
deriving DecidableEq, Repr

/-- Value of a hexadecimal digit, either case. -/
def hexValue (u : Nat) : Option Nat :=
  if 48 ≤ u ∧ u ≤ 57 then some (u - 48)
  else if 97 ≤ u ∧ u ≤ 102 then some (u - 87)
  else if 65 ≤ u ∧ u ≤ 70 then some (u - 55)
  else none

/-- The number a string of hexadecimal digits denotes, continuing from `acc`. -/
def parseHex (acc : Nat) : QString → Option Nat
  | [] => some acc
  | u :: rest =>
    match hexValue u with
    | some d => parseHex (16 * acc + d) rest
    | none => none

/-- Model of the constructor `QBluetoothUuid(const QString &)` on text in the form
`xxxxxxxx-xxxx-xxxx-xxxx-xxxxxxxxxxxx`, braces optional; any other text gives the null
identifier. -/
def QBluetoothUuid.ofString (text : QString) : QBluetoothUuid :=
  let body := (if text.head? = some 123 then text.drop 1 else text).take 36
  let digits := body.filter (fun u => u ≠ 45)
  if body.length = 36 ∧ body.get? 8 = some 45 ∧ body.get? 13 = some 45 ∧
      body.get? 18 = some 45 ∧ body.get? 23 = some 45 ∧ digits.length = 32 then
    match parseHex 0 digits with
    | some v => ⟨v⟩
    | none => ⟨0⟩
  else ⟨0⟩

/-- `QLowEnergyController::Error`. -/
inductive ControllerError where
  | NoError
  | UnknownError
  | UnknownRemoteDeviceError
  | NetworkError
  | InvalidBluetoothAdapterError
  | ConnectionError
  | AdvertisingError
  | RemoteHostClosedError
  | AuthorizationError
deriving DecidableEq, Repr

/-- `QLowEnergyService::ServiceState`. -/
inductive ServiceState where
  | InvalidService
  | RemoteService
  | RemoteServiceDiscovering
  | RemoteServiceDiscovered
  | LocalService
deriving DecidableEq, Repr

/-- The part of `QLowEnergyCharacteristic` the session reads: `uuid()`, `isValid()`,
`properties()` and whether `clientCharacteristicConfiguration()` is valid. -/
structure QLowEnergyCharacteristic where
  uuid : QBluetoothUuid
  isValid : Bool
  properties : Nat
  descriptorValid : Bool
deriving DecidableEq, Repr

/-- `QLowEnergyCharacteristic::Notify`. -/
def QLowEnergyCharacteristic.Notify : Nat := 0x10

/-- A service object handed out by the link, with the characteristics its details hold. -/
structure QLowEnergyService where
  characteristics : List QLowEnergyCharacteristic
deriving DecidableEq, Repr

/-- Model of `QLowEnergyService::characteristic(uuid)`: the characteristic with that
identifier, an invalid one when there is none. -/
def QLowEnergyService.characteristic (service : QLowEnergyService) (uuid : QBluetoothUuid) :
    QLowEnergyCharacteristic :=
  match service.characteristics.find? (fun c => c.uuid = uuid) with
  | some c => c
  | none => { uuid := ⟨0⟩, isValid := false, properties := 0, descriptorValid := false }

/-- The signals of `FitnessDevice` (fitnessdevice.h:31-34). -/
inductive Signal where
  | connectionStateChanged (state : ConnectionState)
  | dataReceived (data : TrainerData)
  | errorOccurred (error : QString)
deriving DecidableEq, Repr

/-- The calls the session makes on the link and on the service object. -/
inductive Request where
  | createCentral (handle : Nat)
  | deleteController (handle : Nat)
  | connectToDevice (handle : Nat)
  | disconnectFromDevice (handle : Nat)
  | discoverServices (handle : Nat)
  | createServiceObject (handle : Nat) (uuid : QBluetoothUuid)
  | discoverDetails
  | deleteService
  | writeDescriptor (value : QByteArray)
deriving DecidableEq, Repr

/-- `QLowEnergyCharacteristic::CCCDEnableNotification`, the bytes `01 00`. -/
def CCCDEnableNotification : QByteArray := [0x01, 0x00]

/-- The members of `FitnessDevice` (fitnessdevice.h:50-54) and the two logs.
`m_controller` holds the handle of the current link object, `created` counts the link
objects made so far, so that a new one is told from the old. -/
structure FitnessDevice where
  m_deviceInfo : QBluetoothDeviceInfo
  m_controller : Option Nat
  m_ftmsService : Option QLowEnergyService
  m_connectionState : ConnectionState
  created : Nat
  emitted : List Signal
  issued : List Request
deriving DecidableEq, Repr

namespace FitnessDevice

/-- The constructor (fitnessdevice.cpp:4-11). -/
def create (deviceInfo : QBluetoothDeviceInfo) : FitnessDevice :=
  { m_deviceInfo := deviceInfo, m_controller := none, m_ftmsService := none,
    m_connectionState := .Disconnected, created := 0, emitted := [], issued := [] }

/-- The statement `emit signal`. -/
def raise (s : FitnessDevice) (signal : Signal) : FitnessDevice :=
  { s with emitted := s.emitted ++ [signal] }

/-- A call on the link or on the service object. -/
def issue (s : FitnessDevice) (request : Request) : FitnessDevice :=
  { s with issued := s.issued ++ [request] }

/-- `FitnessDevice::setConnectionState` (fitnessdevice.cpp:67-75). -/
def setConnectionState (s : FitnessDevice) (state : ConnectionState) : FitnessDevice :=
  if s.m_connectionState = state then s
  else raise { s with m_connectionState := state } (.connectionStateChanged state)

/-- `FitnessDevice::connectToDevice` (fitnessdevice.cpp:31-58). -/
def connectToDevice (s : FitnessDevice) : FitnessDevice :=
  if s.m_connectionState ≠ .Disconnected then s
  else
    let s := s.setConnectionState .Connecting
    let s :=
      match s.m_controller with
      | some old => s.issue (.deleteController old)
      | none => s
    let handle := s.created
    let s := issue { s with m_controller := some handle, created := s.created + 1 }
      (.createCentral handle)
    s.issue (.connectToDevice handle)

/-- `FitnessDevice::disconnectFromDevice` (fitnessdevice.cpp:60-65). -/
def disconnectFromDevice (s : FitnessDevice) : FitnessDevice :=
  match s.m_controller with
  | some handle =>
    if s.m_connectionState ≠ .Disconnected then s.issue (.disconnectFromDevice handle) else s
  | none => s

/-- `FitnessDevice::onDeviceConnected` (fitnessdevice.cpp:77-81). -/
def onDeviceConnected (s : FitnessDevice) : Option FitnessDevice :=
  match s.m_controller with
  | some handle => some (s.issue (.discoverServices handle))
  | none => none

/-- `FitnessDevice::onDeviceDisconnected` (fitnessdevice.cpp:83-92). -/
def onDeviceDisconnected (s : FitnessDevice) : FitnessDevice :=
  let s := s.setConnectionState .Disconnected
  match s.m_ftmsService with
  | some _ => issue { s with m_ftmsService := none } .deleteService
  | none => s

/-- `FitnessDevice::onControllerError` (fitnessdevice.cpp:94-123). -/
def onControllerError (s : FitnessDevice) (error : ControllerError) : FitnessDevice :=
  match error with
  | .NoError => s
  | _ =>
    let errorString : QString :=
      match error with
      | .UnknownRemoteDeviceError => QString.ofLiteral "Unknown remote device error"
      | .InvalidBluetoothAdapterError => QString.ofLiteral "Invalid Bluetooth adapter"
      | .NetworkError => QString.ofLiteral "Network error"
      | .RemoteHostClosedError => QString.ofLiteral "Remote host closed connection"
      | .ConnectionError => QString.ofLiteral "Connection error"
      | _ => QString.ofLiteral "Unknown error"
    (s.setConnectionState .Error).raise (.errorOccurred errorString)

/-- `FitnessDevice::onServiceDiscovered` (fitnessdevice.cpp:125-132): logging only. -/
def onServiceDiscovered (s : FitnessDevice) (_serviceUuid : QBluetoothUuid) : FitnessDevice := s

/-- `FitnessDevice::setupFTMSService` (fitnessdevice.cpp:149-168); `serviceObject` is
what `createServiceObject` returns. -/
def setupFTMSService (s : FitnessDevice) (serviceObject : Option QLowEnergyService) :
    Option FitnessDevice :=
  let ftmsUuid := QBluetoothUuid.ofString FTMS.SERVICE_UUID
  match s.m_controller with
  | none => none
  | some handle =>
    let s := issue { s with m_ftmsService := serviceObject }
      (.createServiceObject handle ftmsUuid)
    match s.m_ftmsService with
    | none =>
      some ((s.raise (.errorOccurred (QString.ofLiteral "Failed to create FTMS service"))
        ).setConnectionState .Error)
    | some _ => some (s.issue .discoverDetails)

/-- `FitnessDevice::onServiceDiscoveryFinished` (fitnessdevice.cpp:134-147); `services`
is what `m_controller->services()` returns. -/
def onServiceDiscoveryFinished (s : FitnessDevice) (services : List QBluetoothUuid)
    (serviceObject : Option QLowEnergyService) : Option FitnessDevice :=
  let ftmsUuid := QBluetoothUuid.ofString FTMS.SERVICE_UUID
  match s.m_controller with
  | none => none
  | some _ =>
    if services.contains ftmsUuid then
      s.setupFTMSService serviceObject
    else
      some ((s.raise (.errorOccurred (QString.ofLiteral "FTMS service not found on device"))
        ).setConnectionState .Error)

/-- `FitnessDevice::onServiceStateChanged` (fitnessdevice.cpp:170-211). -/
def onServiceStateChanged (s : FitnessDevice) (state : ServiceState) : Option FitnessDevice :=
  match state with
  | .RemoteServiceDiscovering => some s
  | .RemoteServiceDiscovered =>
    let indoorBikeDataUuid := QBluetoothUuid.ofString FTMS.INDOOR_BIKE_DATA_UUID
    match s.m_ftmsService with
    | none => none
    | some service =>
      let characteristic := service.characteristic indoorBikeDataUuid
      if characteristic.isValid then
        if characteristic.properties &&& QLowEnergyCharacteristic.Notify ≠ 0 then
          if characteristic.descriptorValid then
            some ((s.issue (.writeDescriptor CCCDEnableNotification)).setConnectionState
              .Connected)
          else some s
        else some s
      else some s
  | .InvalidService =>
    some ((s.raise (.errorOccurred (QString.ofLiteral "Invalid FTMS service"))
      ).setConnectionState .Error)
  | _ => some s

/-- `FitnessDevice::onCharacteristicChanged` (fitnessdevice.cpp:213-223). -/
def onCharacteristicChanged (s : FitnessDevice) (characteristic : QLowEnergyCharacteristic)
    (value : QByteArray) : Rd FitnessDevice :=
  let indoorBikeDataUuid := QBluetoothUuid.ofString FTMS.INDOOR_BIKE_DATA_UUID
  if characteristic.uuid = indoorBikeDataUuid then do
    let data ← parseIndoorBikeData value
    if data.isDataValid then pure (s.raise (.dataReceived data)) else pure s
  else pure s

/-- The states carried by the `connectionStateChanged` signals emitted so far. -/
def stateChanges (s : FitnessDevice) : List ConnectionState :=
  s.emitted.filterMap fun
    | .connectionStateChanged state => some state
    | _ => none

/-- The messages carried by the `errorOccurred` signals emitted so far. -/
def errors (s : FitnessDevice) : List QString :=
  s.emitted.filterMap fun
    | .errorOccurred error => some error
    | _ => none

/-- The samples carried by the `dataReceived` signals emitted so far. -/
def samples (s : FitnessDevice) : List TrainerData :=
  s.emitted.filterMap fun
    | .dataReceived data => some data
    | _ => none

/-- The scripted run: a fresh session, `connectToDevice`, link established, service
discovery finished, service details discovered. -/
def scriptedHandshake (deviceInfo : QBluetoothDeviceInfo) (services : List QBluetoothUuid)
    (serviceObject : Option QLowEnergyService) : Option FitnessDevice := do
  let s := (create deviceInfo).connectToDevice
  let s ← s.onDeviceConnected
  let s ← s.onServiceDiscoveryFinished services serviceObject
  s.onServiceStateChanged .RemoteServiceDiscovered

end FitnessDevice

/-- The connection states of the specification (section 3). -/
inductive SpecConnectionState where
  | Disconnected
  | Connecting
  | DiscoveringServices
  | SubscribingNotifications
  | Streaming
  | Error
deriving DecidableEq, Repr

/-- How a state of the source reads in the terms of the specification: `Connected` is
the specification's `Streaming`. -/
def ConnectionState.toSpec : ConnectionState → SpecConnectionState
  | .Disconnected => .Disconnected
  | .Connecting => .Connecting
  | .Connected => .Streaming
  | .Error => .Error

/-! ## Concrete values for the examples -/

/-- A trainer as a scan reports it: Low-Energy, advertising the FTMS service. -/
def exampleTrainer : QBluetoothDeviceInfo :=
  { address := 0xD0F1A2B3C4D5, name := QString.ofLiteral "KICKR CORE",
    coreConfigurations := 0x01,
    serviceUuids := [⟨0x0000182600001000800000805f9b34fb⟩] }

/-- The Indoor-Bike-Data characteristic, notifiable, with its configuration descriptor. -/
def exampleIndoorBikeData : QLowEnergyCharacteristic :=
  { uuid := ⟨0x00002AD200001000800000805f9b34fb⟩, isValid := true, properties := 0x10,
    descriptorValid := true }

/-- The Heart-Rate measurement characteristic, notifiable. -/
def exampleHeartRateMeasurement : QLowEnergyCharacteristic :=
  { uuid := ⟨0x00002a3700001000800000805f9b34fb⟩, isValid := true, properties := 0x10,
    descriptorValid := true }

/-- An FTMS service object that holds the Indoor-Bike-Data characteristic. -/
def exampleFtmsService : QLowEnergyService :=
  { characteristics := [exampleIndoorBikeData] }

/-- A session that went through `connectToDevice` and then met a connection error. -/
def exampleFailedSession : FitnessDevice :=
  (FitnessDevice.create exampleTrainer).connectToDevice.onControllerError .ConnectionError

/-- A session that is waiting for the link after `connectToDevice`. -/
def exampleConnectingSession : FitnessDevice :=
  (FitnessDevice.create exampleTrainer).connectToDevice

/-- A session that completed the scripted handshake and is streaming. -/
def exampleStreamingSession : FitnessDevice :=
  (FitnessDevice.scriptedHandshake exampleTrainer [⟨0x0000182600001000800000805f9b34fb⟩]
    (some exampleFtmsService)).getD (FitnessDevice.create exampleTrainer)

/-- A session that streamed and then saw its link disconnect. -/
def exampleDisconnectedSession : FitnessDevice :=
  exampleStreamingSession.onDeviceDisconnected

/-! ## The scanner (bluetoothmanager.cpp:24-41, 72-85)

The part of `BluetoothManager` that drives discovery: the candidate list, the calls made
on the `QBluetoothDeviceDiscoveryAgent`, and whether that agent is active.  The agent is
active from a `start` call until a `stop` call or until it reports that it finished.
The only caller, `MainWindow::onScanButtonClicked`, calls `startDeviceDiscovery` when
`isDiscovering()` is false and `stopDeviceDiscovery` otherwise. -/

/-- `QBluetoothDeviceDiscoveryAgent::LowEnergyMethod`. -/
def LowEnergyMethod : Nat := 0x02

/-- The calls made on `m_discoveryAgent`. -/
inductive AgentRequest where
  | start (methods : Nat)
  | stop
deriving DecidableEq, Repr

/-- The discovery signals of `BluetoothManager` (bluetoothmanager.h:28-29). -/
inductive ScanSignal where
  | deviceDiscovered (device : QBluetoothDeviceInfo)
  | discoveryFinished
deriving DecidableEq, Repr

/-- The scanner state: `m_discoveredDevices`, the agent's `isActive()`, and the logs. -/
structure BluetoothManager where
  m_discoveredDevices : List QBluetoothDeviceInfo
  agentActive : Bool
  agentCalls : List AgentRequest
  emitted : List ScanSignal
deriving DecidableEq, Repr

namespace BluetoothManager

/-- The constructor (bluetoothmanager.cpp:4-15). -/
def create : BluetoothManager :=
  { m_discoveredDevices := [], agentActive := false, agentCalls := [], emitted := [] }

/-- `BluetoothManager::startDeviceDiscovery` (bluetoothmanager.cpp:24-29). -/
def startDeviceDiscovery (m : BluetoothManager) : BluetoothManager :=
  { m with
    m_discoveredDevices := []
    agentCalls := m.agentCalls ++ [.start LowEnergyMethod]
    agentActive := true }

/-- `BluetoothManager::stopDeviceDiscovery` (bluetoothmanager.cpp:31-36). -/
def stopDeviceDiscovery (m : BluetoothManager) : BluetoothManager :=
  if m.agentActive then
    { m with agentCalls := m.agentCalls ++ [.stop], agentActive := false }
  else m

/-- `BluetoothManager::isDiscovering` (bluetoothmanager.cpp:38-41). -/
def isDiscovering (m : BluetoothManager) : Bool := m.agentActive

/-- `BluetoothManager::onDeviceDiscovered` (bluetoothmanager.cpp:72-79). -/
def onDeviceDiscovered (m : BluetoothManager) (device : QBluetoothDeviceInfo) :
    BluetoothManager :=
  if isFitnessDevice device then
    { m with
      m_discoveredDevices := m.m_discoveredDevices ++ [device]
      emitted := m.emitted ++ [.deviceDiscovered device] }
  else m

/-- `BluetoothManager::onDiscoveryFinished` (bluetoothmanager.cpp:81-85); the agent is
no longer active when it reports that it finished. -/
def onDiscoveryFinished (m : BluetoothManager) : BluetoothManager :=
  { m with agentActive := false, emitted := m.emitted ++ [.discoveryFinished] }

end BluetoothManager

/-- A scanner in the middle of a scan that has found one trainer. -/
def exampleScanningManager : BluetoothManager :=
  (BluetoothManager.create.startDeviceDiscovery).onDeviceDiscovered exampleTrainer

/-! ## The blocks as pure cursor updates (used by the proofs) -/

/-- What a block writes into `result` when its bounds check passes. -/
def Field.store (data : QByteArray) (off : Nat) (r : TrainerData) : Field → TrainerData
  | .cadence => { r with cadence := ((uint16LE data off / 2 : Nat) : Int) }
  | .distance => { r with distance := ((uint24LE data off : Nat) : ℚ) }
  | .resistance => { r with resistanceLevel := int16LE data off }
  | .power => { r with power := int16LE data off }
  | .energy => { r with expendedEnergy := ((uint16LE data off : Nat) : ℚ) }
  | .heartRate => { r with heartRate := ((u8 data off : Nat) : Int) }
  | .elapsedTime => { r with elapsedTime := uint16LE data off }
  | .averageSpeed => r
  | .averageCadence => r
  | .averagePower => r
  | .metabolicEquivalent => r

/-- The effect of the block of `f` on the cursor. -/
def Field.step (data : QByteArray) (flags : Nat) (f : Field) (c : Cursor) : Cursor :=
  if flags &&& f.mask ≠ 0 ∧ c.offset + f.width ≤ data.length then
    { result := f.store data c.offset c.result, offset := c.offset + f.width }
  else c

/-- The cursor after lines 18-29 on a buffer of at least four bytes. -/
def cursorStart (data : QByteArray) : Cursor :=
  { result := { speed := (uint16LE data 2 : ℚ) / 100 }, offset := 4 }

/-- The cursor after lines 18-29 and the blocks of `fields`, as a pure fold. -/
def foldCursor (data : QByteArray) (fields : List Field) : Cursor :=
  fields.foldl (fun c f => f.step data (uint16LE data 0) c) (cursorStart data)

/-! # Theorems -/

/-! ## Basic lemmas on reads -/

theorem u8_lt (data : QByteArray) (i : Nat) : u8 data i < 256 := (data.getD i 0).isLt

theorem uint16LE_lt (data : QByteArray) (off : Nat) : uint16LE data off < 65536 := by
  have h0 := u8_lt data off
  have h1 := u8_lt data (off + 1)
  unfold uint16LE
  omega

namespace Rd

@[simp] theorem pure_eq {α : Type} (a : α) : (pure a : Rd α) = Rd.ok a 0 := rfl

@[simp] theorem ok_zero_bind {α β : Type} (a : α) (f : α → Rd β) :
    (Rd.ok a 0 >>= f) = f a := by
  show Rd.andThen (Rd.ok a 0) f = f a
  simp only [Rd.andThen]
  cases f a <;> simp

end Rd

theorem or_shift8 (lo hi : Nat) (h : lo < 256) : lo ||| (hi <<< 8) = lo + 256 * hi := by
  rw [Nat.shiftLeft_eq, Nat.lor_comm, Nat.mul_comm, Nat.add_comm]
  exact (Nat.mul_add_lt_is_or (i := 8) (by simpa using h) hi).symm

theorem or_shift16 (lo hi : Nat) (h : lo < 65536) : lo ||| (hi <<< 16) = lo + 65536 * hi := by
  rw [Nat.shiftLeft_eq, Nat.lor_comm, Nat.mul_comm, Nat.add_comm]
  exact (Nat.mul_add_lt_is_or (i := 16) (by simpa using h) hi).symm

theorem or_shift24 (data : QByteArray) (off : Nat) :
    u8 data off ||| (u8 data (off + 1) <<< 8) ||| (u8 data (off + 2) <<< 16)
      = uint24LE data off := by
  have h0 := u8_lt data off
  have h1 := u8_lt data (off + 1)
  rw [or_shift8 _ _ h0, or_shift16 _ _ (by omega)]
  rfl

theorem byteAt_of_lt (data : QByteArray) (i : Nat) (h : i < data.length) :
    byteAt data i = Rd.ok (u8 data i) 0 := by
  unfold byteAt u8
  rw [List.get?_eq_get h]
  simp [List.getD_eq_getElem?_getD, List.getElem?_eq_getElem h]

theorem readUInt16_of_le (data : QByteArray) (off : Nat) (h : off + 2 ≤ data.length) :
    readUInt16 data off = Rd.ok (uint16LE data off) 0 := by
  have hg : ¬ off + 2 > data.length := by omega
  unfold readUInt16
  rw [if_neg hg, byteAt_of_lt data off (by omega), byteAt_of_lt data (off + 1) (by omega)]
  simp [uint16LE, or_shift8 _ _ (u8_lt data off)]

theorem toQInt16_uint16LE (data : QByteArray) (off : Nat) :
    toQInt16 (uint16LE data off) = int16LE data off := by
  have h0 := u8_lt data off
  have h1 := u8_lt data (off + 1)
  have hm : uint16LE data off % 65536 = uint16LE data off :=
    Nat.mod_eq_of_lt (uint16LE_lt data off)
  unfold toQInt16 int16LE
  rw [hm]
  by_cases hb : u8 data (off + 1) < 128
  · have : uint16LE data off < 32768 := by unfold uint16LE; omega
    simp [hb, this]
  · have : ¬ uint16LE data off < 32768 := by unfold uint16LE; omega
    simp [hb, this]

theorem readSInt16_of_le (data : QByteArray) (off : Nat) (h : off + 2 ≤ data.length) :
    readSInt16 data off = Rd.ok (int16LE data off) 0 := by
  unfold readSInt16
  rw [readUInt16_of_le data off h]
  simp [toQInt16_uint16LE]

/-- Every block of the source stays inside the buffer, never trips the guard of
`readUInt16`, and acts on the cursor as `Field.step` says. -/
theorem block_eq_step (data : QByteArray) (flags : Nat) (f : Field) (c : Cursor) :
    f.block data flags c = Rd.ok (f.step data flags c) 0 := by
  cases f <;>
    simp only [Field.block, Field.step, Field.mask, Field.width, Field.store,
      averageSpeedBlock, cadenceBlock, averageCadenceBlock, distanceBlock, resistanceBlock,
      powerBlock, averagePowerBlock, energyBlock, heartRateBlock, metabolicEquivalentBlock,
      elapsedTimeBlock] <;>
    split_ifs <;>
    first
    | rfl
    | (exfalso; simp_all; done)
    | simp (disch := omega) [readUInt16_of_le, readSInt16_of_le, byteAt_of_lt, or_shift24]

theorem runBlocks_eq_foldl (data : QByteArray) (flags : Nat) (fields : List Field)
    (c : Cursor) :
    runBlocks (fields.map (Field.block data flags)) c
      = Rd.ok (fields.foldl (fun c f => f.step data flags c) c) 0 := by
  induction fields generalizing c with
  | nil => rfl
  | cons f fs ih =>
    simp only [List.map_cons, runBlocks, List.foldl_cons]
    rw [block_eq_step, Rd.ok_zero_bind, ih]

theorem speedBlock_start (data : QByteArray) (h : 4 ≤ data.length) :
    speedBlock data { result := {}, offset := 2 } = Rd.ok (cursorStart data) 0 := by
  unfold speedBlock cursorStart
  simp (disch := omega) [readUInt16_of_le, h]

theorem cursorAfter_eq_fold (data : QByteArray) (h : 4 ≤ data.length) (fields : List Field) :
    cursorAfter data fields = Rd.ok (foldCursor data fields) 0 := by
  unfold cursorAfter foldCursor
  rw [readUInt16_of_le data 0 (by omega), Rd.ok_zero_bind, speedBlock_start data h,
    Rd.ok_zero_bind, runBlocks_eq_foldl]

/-- On a buffer of at least four bytes the decoder is the fold of its blocks. -/
theorem parseIndoorBikeData_eq_fold (data : QByteArray) (h : 4 ≤ data.length) :
    parseIndoorBikeData data
      = Rd.ok { (foldCursor data Field.order).result with isDataValid := true } 0 := by
  have hlt : ¬ data.length < 4 := by omega
  unfold parseIndoorBikeData
  simp only [hlt, if_false]
  rw [readUInt16_of_le data 0 (by omega), Rd.ok_zero_bind]
  simp only [Nat.zero_add]
  rw [speedBlock_start data h, Rd.ok_zero_bind]
  have e0 : ∀ c, averageSpeedBlock data (uint16LE data 0) c
      = Rd.ok (Field.step data (uint16LE data 0) .averageSpeed c) 0 :=
    fun c => block_eq_step data (uint16LE data 0) .averageSpeed c
  have e1 : ∀ c, cadenceBlock data (uint16LE data 0) c
      = Rd.ok (Field.step data (uint16LE data 0) .cadence c) 0 :=
    fun c => block_eq_step data (uint16LE data 0) .cadence c
  have e2 : ∀ c, averageCadenceBlock data (uint16LE data 0) c
      = Rd.ok (Field.step data (uint16LE data 0) .averageCadence c) 0 :=
    fun c => block_eq_step data (uint16LE data 0) .averageCadence c
  have e3 : ∀ c, distanceBlock data (uint16LE data 0) c
      = Rd.ok (Field.step data (uint16LE data 0) .distance c) 0 :=
    fun c => block_eq_step data (uint16LE data 0) .distance c
  have e4 : ∀ c, resistanceBlock data (uint16LE data 0) c
      = Rd.ok (Field.step data (uint16LE data 0) .resistance c) 0 :=
    fun c => block_eq_step data (uint16LE data 0) .resistance c
  have e5 : ∀ c, powerBlock data (uint16LE data 0) c
      = Rd.ok (Field.step data (uint16LE data 0) .power c) 0 :=
    fun c => block_eq_step data (uint16LE data 0) .power c
  have e6 : ∀ c, averagePowerBlock data (uint16LE data 0) c
      = Rd.ok (Field.step data (uint16LE data 0) .averagePower c) 0 :=
    fun c => block_eq_step data (uint16LE data 0) .averagePower c
  have e7 : ∀ c, energyBlock data (uint16LE data 0) c
      = Rd.ok (Field.step data (uint16LE data 0) .energy c) 0 :=
    fun c => block_eq_step data (uint16LE data 0) .energy c
  have e8 : ∀ c, heartRateBlock data (uint16LE data 0) c
      = Rd.ok (Field.step data (uint16LE data 0) .heartRate c) 0 :=
    fun c => block_eq_step data (uint16LE data 0) .heartRate c
  have e9 : ∀ c, metabolicEquivalentBlock data (uint16LE data 0) c
      = Rd.ok (Field.step data (uint16LE data 0) .metabolicEquivalent c) 0 :=
    fun c => block_eq_step data (uint16LE data 0) .metabolicEquivalent c
  have e10 : ∀ c, elapsedTimeBlock data (uint16LE data 0) c
      = Rd.ok (Field.step data (uint16LE data 0) .elapsedTime c) 0 :=
    fun c => block_eq_step data (uint16LE data 0) .elapsedTime c
  rw [e0, Rd.ok_zero_bind, e1, Rd.ok_zero_bind, e2, Rd.ok_zero_bind, e3, Rd.ok_zero_bind, e4, Rd.ok_zero_bind, e5, Rd.ok_zero_bind, e6, Rd.ok_zero_bind, e7, Rd.ok_zero_bind, e8, Rd.ok_zero_bind, e9, Rd.ok_zero_bind, e10, Rd.ok_zero_bind]
  rfl

/-- The decoder is the run of all eleven blocks, then line 124. -/
theorem parseIndoorBikeData_eq_cursorAfter (data : QByteArray) (h : 4 ≤ data.length) :
    parseIndoorBikeData data
      = cursorAfter data Field.order >>= fun c =>
          pure { c.result with isDataValid := true } := by
  rw [parseIndoorBikeData_eq_fold data h, cursorAfter_eq_fold data h, Rd.ok_zero_bind]
  rfl

theorem parseIndoorBikeData_short (data : QByteArray) (h : data.length < 4) :
    parseIndoorBikeData data = Rd.ok {} 0 := by
  unfold parseIndoorBikeData
  simp [h]

/-- The heart-rate decoder on a buffer of at least two bytes, as a pure function. -/
theorem parseHeartRateData_eq (data : QByteArray) (h : 2 ≤ data.length) :
    parseHeartRateData data
      = Rd.ok { heartRate :=
                  if u8 data 0 % 2 = 1 then
                    if 3 ≤ data.length then ((uint16LE data 1 : Nat) : Int) else 0
                  else ((u8 data 1 : Nat) : Int)
                isDataValid := true } 0 := by
  have hlt : ¬ data.length < 2 := by omega
  unfold parseHeartRateData
  simp only [hlt, if_false]
  rw [byteAt_of_lt data 0 (by omega), Rd.ok_zero_bind]
  rcases Nat.mod_two_eq_zero_or_one (u8 data 0) with hb | hb
  · have h2 : 0 + 1 + 1 ≤ data.length := by omega
    simp (disch := omega) [hb, h2, byteAt_of_lt]
  · by_cases h3 : 3 ≤ data.length
    · have h3' : 0 + 1 + 2 ≤ data.length := by omega
      simp (disch := omega) [hb, h3, h3', readUInt16_of_le]
    · have h3' : ¬ 0 + 1 + 2 ≤ data.length := by omega
      simp [hb, h3, h3']

theorem parseHeartRateData_short (data : QByteArray) (h : data.length < 2) :
    parseHeartRateData data = Rd.ok {} 0 := by
  unfold parseHeartRateData
  simp [h]

/-! ## The blocks against the field table -/

/-- The test of a block on its enumerator is the test of the field's bit. -/
theorem mask_test_iff (flags : Nat) (f : Field) :
    flags &&& f.mask ≠ 0 ↔ f.announced flags = true := by
  have hm : f.mask = 2 ^ f.bit := by cases f <;> rfl
  unfold Field.announced
  rw [hm]
  constructor
  · intro h
    by_contra hb
    apply h
    apply Nat.eq_of_testBit_eq
    intro i
    rw [Nat.testBit_and, Nat.zero_testBit, Nat.testBit_two_pow]
    by_cases hi : f.bit = i
    · subst hi
      simp [hb]
    · simp [hi]
  · intro h h0
    have : (flags &&& 2 ^ f.bit).testBit f.bit = true := by
      rw [Nat.testBit_and, h, Nat.testBit_two_pow_self]
      rfl
    rw [h0, Nat.zero_testBit] at this
    exact Bool.false_ne_true this

theorem step_of_not_announced (data : QByteArray) (flags : Nat) (f : Field) (c : Cursor)
    (h : f.announced flags = false) : f.step data flags c = c := by
  have hn : ¬ flags &&& f.mask ≠ 0 := by
    rw [mask_test_iff, h]
    exact Bool.false_ne_true
  unfold Field.step
  rw [if_neg (fun hc => hn hc.1)]

theorem step_of_truncated (data : QByteArray) (flags : Nat) (f : Field) (c : Cursor)
    (h : data.length < c.offset + f.width) : f.step data flags c = c := by
  unfold Field.step
  rw [if_neg (fun hc => by omega)]

theorem step_of_fits (data : QByteArray) (flags : Nat) (f : Field) (c : Cursor)
    (ha : f.announced flags = true) (h : c.offset + f.width ≤ data.length) :
    f.step data flags c
      = { result := f.store data c.offset c.result, offset := c.offset + f.width } := by
  unfold Field.step
  rw [if_pos ⟨(mask_test_iff flags f).2 ha, h⟩]

/-- A block leaves the members of the other fields alone. -/
theorem surfaced_step_of_ne (data : QByteArray) (flags : Nat) (f g : Field) (c : Cursor)
    (h : g ≠ f) : f.surfaced (g.step data flags c).result = f.surfaced c.result := by
  unfold Field.step
  split_ifs
  · cases f <;> cases g <;> first | rfl | exact absurd rfl h
  · rfl

theorem surfaced_foldl_of_not_mem (data : QByteArray) (flags : Nat) (f : Field)
    (l : List Field) (c : Cursor) (h : f ∉ l) :
    f.surfaced (l.foldl (fun c g => g.step data flags c) c).result = f.surfaced c.result := by
  induction l generalizing c with
  | nil => rfl
  | cons g gs ih =>
    rw [List.foldl_cons, ih _ (fun hm => h (List.mem_cons_of_mem _ hm))]
    exact surfaced_step_of_ne data flags f g c (fun hg => h (hg ▸ List.mem_cons_self _ _))

/-- No block touches `speed` or `isDataValid`. -/
theorem speed_foldl (data : QByteArray) (flags : Nat) (l : List Field) (c : Cursor) :
    (l.foldl (fun c g => g.step data flags c) c).result.speed = c.result.speed ∧
    (l.foldl (fun c g => g.step data flags c) c).result.isDataValid
      = c.result.isDataValid := by
  induction l generalizing c with
  | nil => exact ⟨rfl, rfl⟩
  | cons g gs ih =>
    rw [List.foldl_cons]
    refine ⟨(ih _).1.trans ?_, (ih _).2.trans ?_⟩ <;>
    · unfold Field.step
      split_ifs
      · cases g <;> rfl
      · rfl

/-- The fixed order splits around every field, which occurs in it exactly once. -/
theorem order_split (f : Field) :
    ∃ post, Field.order = f.preceding ++ f :: post ∧ f ∉ f.preceding ∧ f ∉ post := by
  cases f <;> exact ⟨_, rfl, by decide, by decide⟩

/-- Every member a field is surfaced through is 0 after lines 18-29. -/
theorem surfaced_start (data : QByteArray) (f : Field) (v : ℚ)
    (h : f.surfaced (cursorStart data).result = some v) : v = 0 := by
  cases f <;> simp [Field.surfaced, cursorStart] at h <;> exact h.symm

theorem need_le_width (flags : Nat) (f : Field) : f.need flags ≤ f.width := by
  unfold Field.need
  split_ifs <;> omega

/-- While every flagged field fits, the running offset is the sum of the widths of the
flagged fields consumed so far. -/
theorem offset_foldl_of_fits (data : QByteArray) (flags : Nat) (l : List Field) (c : Cursor)
    (h : c.offset + (l.map (Field.need flags)).sum ≤ data.length) :
    (l.foldl (fun c g => g.step data flags c) c).offset
      = c.offset + (l.map (Field.need flags)).sum := by
  induction l generalizing c with
  | nil => simp
  | cons g gs ih =>
    simp only [List.map_cons, List.sum_cons] at h ⊢
    rw [List.foldl_cons]
    have hstep : (g.step data flags c).offset = c.offset + g.need flags := by
      cases ha : g.announced flags
      · rw [step_of_not_announced data flags g c ha]
        simp [Field.need, ha]
      · have hn : g.need flags = g.width := by simp [Field.need, ha]
        rw [step_of_fits data flags g c ha (by omega), hn]
    rw [ih _ (by omega), hstep]
    omega

theorem foldCursor_split (data : QByteArray) (pre post : List Field) (f : Field) :
    foldCursor data (pre ++ f :: post)
      = post.foldl (fun c g => g.step data (uint16LE data 0) c)
          (f.step data (uint16LE data 0) (foldCursor data pre)) := by
  unfold foldCursor
  rw [List.foldl_append, List.foldl_cons]

theorem surfaced_valid (r : TrainerData) (f : Field) :
    f.surfaced { r with isDataValid := true } = f.surfaced r := by
  cases f <;> rfl

theorem foldCursor_offset_preceding (data : QByteArray) (f : Field)
    (hlen : frameLength (uint16LE data 0) ≤ data.length) :
    (foldCursor data f.preceding).offset = f.offsetIn (uint16LE data 0) ∧
    (foldCursor data f.preceding).offset + f.need (uint16LE data 0) ≤ data.length := by
  obtain ⟨post, ho, _, _⟩ := order_split f
  have hsum : (Field.order.map (Field.need (uint16LE data 0))).sum
      = (f.preceding.map (Field.need (uint16LE data 0))).sum
        + (f.need (uint16LE data 0) + (post.map (Field.need (uint16LE data 0))).sum) := by
    rw [ho, List.map_append, List.sum_append, List.map_cons, List.sum_cons]
  unfold frameLength at hlen
  have hoff := offset_foldl_of_fits data (uint16LE data 0) f.preceding (cursorStart data)
    (by show 4 + _ ≤ _; omega)
  have hoff' : (foldCursor data f.preceding).offset
      = 4 + (f.preceding.map (Field.need (uint16LE data 0))).sum := hoff
  refine ⟨hoff', ?_⟩
  rw [hoff']
  omega

/-- Member by member, the fold of the blocks holds what the field table prescribes, on
a buffer that holds every flagged field. -/
theorem surfaced_fold_eq_reference (data : QByteArray)
    (hlen : frameLength (uint16LE data 0) ≤ data.length) (f : Field) :
    f.surfaced (foldCursor data Field.order).result = f.surfaced (referenceDecode data) := by
  obtain ⟨post, ho, hpre, hpost⟩ := order_split f
  obtain ⟨hoff, hfit⟩ := foldCursor_offset_preceding data f hlen
  rw [ho, foldCursor_split, surfaced_foldl_of_not_mem _ _ _ _ _ hpost]
  have hstart : f.surfaced (foldCursor data f.preceding).result
      = f.surfaced (cursorStart data).result :=
    surfaced_foldl_of_not_mem _ _ _ _ _ hpre
  cases ha : f.announced (uint16LE data 0)
  · rw [step_of_not_announced _ _ _ _ ha, hstart]
    cases f <;> simp [Field.surfaced, referenceDecode, cursorStart, ha]
  · have hn : f.need (uint16LE data 0) = f.width := by simp [Field.need, ha]
    rw [step_of_fits _ _ _ _ ha (by omega), hoff]
    cases f <;> simp [Field.surfaced, Field.store, referenceDecode, ha]

/-! ## The claims -/

/-- C1: for every byte buffer of length 0, 1, 2 or 3, `parseIndoorBikeData` returns a
sample with `isDataValid = false` and speed, cadence, power, heartRate, distance,
resistanceLevel, expendedEnergy and elapsedTime all equal to 0. -/
theorem parseIndoorBikeData_short_buffer (data : QByteArray) (h : data.length < 4) :
    parseIndoorBikeData data
      = Rd.ok { speed := 0, cadence := 0, power := 0, heartRate := 0, distance := 0,
                resistanceLevel := 0, expendedEnergy := 0, elapsedTime := 0,
                isDataValid := false } 0 :=
  parseIndoorBikeData_short data h

theorem parseIndoorBikeData_short_buffer_witness :
    ([0x44, 0x02, 0x64] : QByteArray).length < 4 ∧
    parseIndoorBikeData [0x44, 0x02, 0x64]
      = Rd.ok { speed := 0, cadence := 0, power := 0, heartRate := 0, distance := 0,
                resistanceLevel := 0, expendedEnergy := 0, elapsedTime := 0,
                isDataValid := false } 0 :=
  ⟨by decide, parseIndoorBikeData_short_buffer [0x44, 0x02, 0x64] (by decide)⟩

/-- C2: for every buffer of at least 4 bytes that is long enough to hold every field
its 16-bit little-endian flags word announces, `parseIndoorBikeData` equals the reference
field-table decoder: speed = uint16LE(bytes 2..3)/100 whatever the flags; each flagged
field is read at offset 4 + the widths of the flagged fields that precede it in the
fixed order; cadence = uint16LE div 2, distance = 24-bit unsigned LE, resistance and
power = int16LE, expendedEnergy = first uint16LE of the energy block, heartRate = one
byte, elapsedTime = uint16LE; every unflagged surfaced field is 0. -/
theorem parseIndoorBikeData_eq_referenceDecode (data : QByteArray) (h4 : 4 ≤ data.length)
    (hlen : frameLength (uint16LE data 0) ≤ data.length) :
    parseIndoorBikeData data = Rd.ok (referenceDecode data) 0 := by
  rw [parseIndoorBikeData_eq_fold data h4]
  have key := surfaced_fold_eq_reference data hlen
  have hsp := (speed_foldl data (uint16LE data 0) Field.order (cursorStart data)).1
  have h1 := key .cadence
  have h2 := key .distance
  have h3 := key .resistance
  have h4 := key .power
  have h5 := key .energy
  have h6 := key .heartRate
  have h7 := key .elapsedTime
  simp only [Field.surfaced, Option.some.injEq] at h1 h2 h3 h4 h5 h6 h7
  have hsp' : (foldCursor data Field.order).result.speed = (referenceDecode data).speed := hsp
  congr 1
  cases hR : (foldCursor data Field.order).result
  cases hD : referenceDecode data
  rw [hR, hD] at h1 h2 h3 h4 h5 h6 h7 hsp'
  have hv : (referenceDecode data).isDataValid = true := rfl
  rw [hD] at hv
  simp only at h1 h2 h3 h4 h5 h6 h7 hsp' hv
  simp only [TrainerData.mk.injEq]
  exact ⟨hsp', by exact_mod_cast h1, by exact_mod_cast h4, by exact_mod_cast h6, h2,
    by exact_mod_cast h3, h5, by exact_mod_cast h7, hv.symm⟩

theorem parseIndoorBikeData_eq_referenceDecode_witness :
    4 ≤ ([0x54, 0x02, 0x64, 0x00, 0xB4, 0x00, 0x10, 0x27, 0x00, 0xF4, 0x01, 0x46] :
          QByteArray).length ∧
    frameLength (uint16LE [0x54, 0x02, 0x64, 0x00, 0xB4, 0x00, 0x10, 0x27, 0x00, 0xF4, 0x01,
          0x46] 0) ≤
      ([0x54, 0x02, 0x64, 0x00, 0xB4, 0x00, 0x10, 0x27, 0x00, 0xF4, 0x01, 0x46] :
          QByteArray).length ∧
    parseIndoorBikeData [0x54, 0x02, 0x64, 0x00, 0xB4, 0x00, 0x10, 0x27, 0x00, 0xF4, 0x01, 0x46]
      = Rd.ok (referenceDecode
          [0x54, 0x02, 0x64, 0x00, 0xB4, 0x00, 0x10, 0x27, 0x00, 0xF4, 0x01, 0x46]) 0 :=
  ⟨by decide, by decide,
    parseIndoorBikeData_eq_referenceDecode
      [0x54, 0x02, 0x64, 0x00, 0xB4, 0x00, 0x10, 0x27, 0x00, 0xF4, 0x01, 0x46]
      (by decide) (by decide)⟩

/-- C3: for every buffer of at least 4 bytes whose first two bytes are 0x00,0x00, the
decoder returns a valid sample with speed = (byte2 + 256*byte3)/100 and every other
field 0, whatever bytes follow; `[0x00,0x00,0x64,0x00]` decodes to speed 1. -/
theorem parseIndoorBikeData_no_flags :
    (∀ (b2 b3 : Byte) (rest : QByteArray),
      parseIndoorBikeData (0x00 :: 0x00 :: b2 :: b3 :: rest)
        = Rd.ok { speed := ((b2.val + 256 * b3.val : Nat) : ℚ) / 100, cadence := 0,
                  power := 0, heartRate := 0, distance := 0, resistanceLevel := 0,
                  expendedEnergy := 0, elapsedTime := 0, isDataValid := true } 0) ∧
    parseIndoorBikeData [0x00, 0x00, 0x64, 0x00]
      = Rd.ok { speed := 1, cadence := 0, power := 0, heartRate := 0, distance := 0,
                resistanceLevel := 0, expendedEnergy := 0, elapsedTime := 0,
                isDataValid := true } 0 := by
  have key : ∀ (b2 b3 : Byte) (rest : QByteArray),
      parseIndoorBikeData (0x00 :: 0x00 :: b2 :: b3 :: rest)
        = Rd.ok { speed := ((b2.val + 256 * b3.val : Nat) : ℚ) / 100, cadence := 0,
                  power := 0, heartRate := 0, distance := 0, resistanceLevel := 0,
                  expendedEnergy := 0, elapsedTime := 0, isDataValid := true } 0 := by
    intro b2 b3 rest
    rw [parseIndoorBikeData_eq_fold _ (by simp)]
    simp [foldCursor, Field.order, Field.step, cursorStart, uint16LE, u8]
  refine ⟨key, ?_⟩
  rw [key]
  have h100 : ((0x64 : Byte) : Nat) = 100 := rfl
  have h0 : ((0x00 : Byte) : Nat) = 0 := rfl
  rw [h100, h0]
  norm_num

/-- The decoder on a frame whose flags word is exactly `InstantaneousPowerPresent`. -/
theorem parseIndoorBikeData_power_frame (b2 b3 b4 b5 : Byte) (rest : QByteArray) :
    parseIndoorBikeData (0x40 :: 0x00 :: b2 :: b3 :: b4 :: b5 :: rest)
      = Rd.ok { speed := ((b2.val + 256 * b3.val : Nat) : ℚ) / 100
                power := if b5.val < 128 then ((b4.val + 256 * b5.val : Nat) : Int)
                         else ((b4.val + 256 * b5.val : Nat) : Int) - 65536
                isDataValid := true } 0 := by
  rw [parseIndoorBikeData_eq_fold _ (by simp)]
  have h40 : ((0x40 : Byte) : Nat) = 64 := rfl
  simp +decide [foldCursor, Field.order, Field.step, Field.mask, Field.width, Field.store,
    cursorStart, uint16LE, int16LE, u8, h40, AverageSpeedPresent, InstantaneousCadencePresent,
    AverageCadencePresent, TotalDistancePresent, ResistanceLevelPresent,
    InstantaneousPowerPresent, AveragePowerPresent, ExpendedEnergyPresent, HeartRatePresent,
    MetabolicEquivalentPresent, ElapsedTimePresent]

/-- C4: for every buffer of at least 6 bytes whose flags word is exactly
`InstantaneousPowerPresent` (0x0040), the decoded power is the two's-complement signed
16-bit little-endian value of bytes 4..5, in the range -32768..32767; the payload
0xF4,0x01 gives 500 and 0xFF,0xFF gives -1. -/
theorem parseIndoorBikeData_power_signed :
    (∀ (b2 b3 b4 b5 : Byte) (rest : QByteArray), ∃ r,
      parseIndoorBikeData (0x40 :: 0x00 :: b2 :: b3 :: b4 :: b5 :: rest) = Rd.ok r 0 ∧
      r.power = (if b5.val < 128 then ((b4.val + 256 * b5.val : Nat) : Int)
                 else ((b4.val + 256 * b5.val : Nat) : Int) - 65536) ∧
      -32768 ≤ r.power ∧ r.power ≤ 32767) ∧
    (∀ (b2 b3 : Byte) (rest : QByteArray), ∃ r,
      parseIndoorBikeData (0x40 :: 0x00 :: b2 :: b3 :: 0xF4 :: 0x01 :: rest) = Rd.ok r 0 ∧
      r.power = 500) ∧
    (∀ (b2 b3 : Byte) (rest : QByteArray), ∃ r,
      parseIndoorBikeData (0x40 :: 0x00 :: b2 :: b3 :: 0xFF :: 0xFF :: rest) = Rd.ok r 0 ∧
      r.power = -1) := by
  refine ⟨?_, ?_, ?_⟩
  · intro b2 b3 b4 b5 rest
    refine ⟨_, parseIndoorBikeData_power_frame b2 b3 b4 b5 rest, rfl, ?_, ?_⟩
    · have h4 := b4.isLt
      have h5 := b5.isLt
      show (-32768 : Int) ≤ if b5.val < 128 then _ else _
      split_ifs <;> omega
    · have h4 := b4.isLt
      have h5 := b5.isLt
      show (if b5.val < 128 then _ else _) ≤ (32767 : Int)
      split_ifs <;> omega
  · intro b2 b3 rest
    refine ⟨_, parseIndoorBikeData_power_frame b2 b3 0xF4 0x01 rest, ?_⟩
    show (if (0x01 : Byte).val < 128 then
        (((0xF4 : Byte).val + 256 * (0x01 : Byte).val : Nat) : Int)
      else (((0xF4 : Byte).val + 256 * (0x01 : Byte).val : Nat) : Int) - 65536) = 500
    decide
  · intro b2 b3 rest
    refine ⟨_, parseIndoorBikeData_power_frame b2 b3 0xFF 0xFF rest, ?_⟩
    show (if (0xFF : Byte).val < 128 then
        (((0xFF : Byte).val + 256 * (0xFF : Byte).val : Nat) : Int)
      else (((0xFF : Byte).val + 256 * (0xFF : Byte).val : Nat) : Int) - 65536) = -1
    decide

/-- The decoder on a frame whose flags word is exactly `TotalDistancePresent`. -/
theorem parseIndoorBikeData_distance_frame (b2 b3 b4 b5 b6 : Byte) (rest : QByteArray) :
    parseIndoorBikeData (0x10 :: 0x00 :: b2 :: b3 :: b4 :: b5 :: b6 :: rest)
      = Rd.ok { speed := ((b2.val + 256 * b3.val : Nat) : ℚ) / 100
                distance := ((b4.val + 256 * b5.val + 65536 * b6.val : Nat) : ℚ)
                isDataValid := true } 0 := by
  rw [parseIndoorBikeData_eq_fold _ (by simp)]
  have h10 : ((0x10 : Byte) : Nat) = 16 := rfl
  simp +decide [foldCursor, Field.order, Field.step, Field.mask, Field.width, Field.store,
    cursorStart, uint16LE, uint24LE, u8, h10, AverageSpeedPresent, InstantaneousCadencePresent,
    AverageCadencePresent, TotalDistancePresent, ResistanceLevelPresent,
    InstantaneousPowerPresent, AveragePowerPresent, ExpendedEnergyPresent, HeartRatePresent,
    MetabolicEquivalentPresent, ElapsedTimePresent]

/-- C5: for every buffer of at least 7 bytes whose flags word is exactly
`TotalDistancePresent` (0x0010), the decoded distance is byte4 + 256*byte5 + 65536*byte6,
an unsigned value in 0..16777215, also when byte6 is 0x80 or more; the payload
0x10,0x27,0x00 gives 10000. -/
theorem parseIndoorBikeData_distance_unsigned :
    (∀ (b2 b3 b4 b5 b6 : Byte) (rest : QByteArray), ∃ r,
      parseIndoorBikeData (0x10 :: 0x00 :: b2 :: b3 :: b4 :: b5 :: b6 :: rest) = Rd.ok r 0 ∧
      r.distance = ((b4.val + 256 * b5.val + 65536 * b6.val : Nat) : ℚ) ∧
      0 ≤ r.distance ∧ r.distance ≤ 16777215) ∧
    (∀ (b2 b3 : Byte) (rest : QByteArray), ∃ r,
      parseIndoorBikeData (0x10 :: 0x00 :: b2 :: b3 :: 0x10 :: 0x27 :: 0x00 :: rest)
        = Rd.ok r 0 ∧
      r.distance = 10000) := by
  refine ⟨?_, ?_⟩
  · intro b2 b3 b4 b5 b6 rest
    refine ⟨_, parseIndoorBikeData_distance_frame b2 b3 b4 b5 b6 rest, rfl, ?_, ?_⟩
    · exact Nat.cast_nonneg _
    · have h4 := b4.isLt
      have h5 := b5.isLt
      have h6 := b6.isLt
      have hn : b4.val + 256 * b5.val + 65536 * b6.val ≤ 16777215 := by omega
      show ((b4.val + 256 * b5.val + 65536 * b6.val : Nat) : ℚ) ≤ 16777215
      exact_mod_cast hn
  · intro b2 b3 rest
    refine ⟨_, parseIndoorBikeData_distance_frame b2 b3 0x10 0x27 0x00 rest, ?_⟩
    show (((0x10 : Byte).val + 256 * (0x27 : Byte).val + 65536 * (0x00 : Byte).val : Nat) : ℚ)
      = 10000
    have e : (0x10 : Byte).val + 256 * (0x27 : Byte).val + 65536 * (0x00 : Byte).val = 10000 :=
      by decide
    rw [e]
    norm_num

/-- C6: for every buffer of at least 4 bytes, whatever its flags, `parseIndoorBikeData`
marks the sample valid, and every flagged optional field whose width exceeds the bytes
remaining at the running offset when its block is reached is left at its default 0. -/
theorem parseIndoorBikeData_truncated_field_default (data : QByteArray)
    (h : 4 ≤ data.length) :
    ∃ r, parseIndoorBikeData data = Rd.ok r 0 ∧ r.isDataValid = true ∧
      ∀ f : Field, ∃ c, cursorReaching data f = Rd.ok c 0 ∧
        (f.announced (uint16LE data 0) = true → data.length < c.offset + f.width →
          ∀ v, f.surfaced r = some v → v = 0) := by
  refine ⟨_, parseIndoorBikeData_eq_fold data h, rfl, ?_⟩
  intro f
  refine ⟨_, cursorAfter_eq_fold data h f.preceding, ?_⟩
  intro _ htr v hv
  obtain ⟨post, ho, hpre, hpost⟩ := order_split f
  rw [surfaced_valid, ho, foldCursor_split, surfaced_foldl_of_not_mem _ _ _ _ _ hpost,
    step_of_truncated _ _ _ _ htr] at hv
  have hstart : f.surfaced (foldCursor data f.preceding).result
      = f.surfaced (cursorStart data).result :=
    surfaced_foldl_of_not_mem _ _ _ _ _ hpre
  rw [hstart] at hv
  exact surfaced_start data f v hv

theorem parseIndoorBikeData_truncated_field_default_witness :
    4 ≤ ([0x10, 0x02, 0x64, 0x00, 0x10, 0x27] : QByteArray).length ∧
    Field.distance.announced (uint16LE [0x10, 0x02, 0x64, 0x00, 0x10, 0x27] 0) = true ∧
    ∃ r c, parseIndoorBikeData [0x10, 0x02, 0x64, 0x00, 0x10, 0x27] = Rd.ok r 0 ∧
      cursorReaching [0x10, 0x02, 0x64, 0x00, 0x10, 0x27] .distance = Rd.ok c 0 ∧
      c.offset = 4 ∧
      ([0x10, 0x02, 0x64, 0x00, 0x10, 0x27] : QByteArray).length
        < c.offset + Field.distance.width ∧
      r.isDataValid = true ∧ r.distance = 0 := by
  obtain ⟨r, hr, hv, hf⟩ :=
    parseIndoorBikeData_truncated_field_default [0x10, 0x02, 0x64, 0x00, 0x10, 0x27]
      (by decide)
  obtain ⟨c, hc, himp⟩ := hf .distance
  have hoff : c.offset = 4 := by
    have he := hc
    rw [cursorReaching, cursorAfter_eq_fold _ (by decide)] at he
    injection he with he _
    rw [← he]
    decide
  have hlt : ([0x10, 0x02, 0x64, 0x00, 0x10, 0x27] : QByteArray).length
      < c.offset + Field.distance.width := by
    rw [hoff]
    decide
  exact ⟨by decide, by decide, r, c, hr, hc, hoff, hlt, hv, himp (by decide) hlt _ rfl⟩

/-- C7: both decoders are total on every byte buffer: no read leaves the buffer (the
run is never `Rd.outOfBounds`) and the guard of `readUInt16` is never taken (zero guard
hits). -/
theorem decoders_total (data : QByteArray) :
    (∃ r, parseIndoorBikeData data = Rd.ok r 0) ∧
    (∃ r, parseHeartRateData data = Rd.ok r 0) := by
  constructor
  · by_cases h : data.length < 4
    · exact ⟨_, parseIndoorBikeData_short data h⟩
    · exact ⟨_, parseIndoorBikeData_eq_fold data (by omega)⟩
  · by_cases h : data.length < 2
    · exact ⟨_, parseHeartRateData_short data h⟩
    · exact ⟨_, parseHeartRateData_eq data (by omega)⟩

/-- C8: `parseHeartRateData` reads the heart rate with the width bit 0 of the first
byte selects: with bit 0 clear and at least 2 bytes, heartRate = byte 1; with bit 0 set
and at least 3 bytes, heartRate = byte1 + 256*byte2; the sample is valid and every other
field is 0.  `[flags, 0x46]` and `[flags, 0x46, 0x00]` both give 70. -/
theorem parseHeartRateData_width :
    (∀ (f b1 : Byte) (rest : QByteArray), f.val.testBit 0 = false →
      parseHeartRateData (f :: b1 :: rest)
        = Rd.ok { speed := 0, cadence := 0, power := 0, heartRate := (b1.val : Int),
                  distance := 0, resistanceLevel := 0, expendedEnergy := 0, elapsedTime := 0,
                  isDataValid := true } 0) ∧
    (∀ (f b1 b2 : Byte) (rest : QByteArray), f.val.testBit 0 = true →
      parseHeartRateData (f :: b1 :: b2 :: rest)
        = Rd.ok { speed := 0, cadence := 0, power := 0,
                  heartRate := ((b1.val + 256 * b2.val : Nat) : Int),
                  distance := 0, resistanceLevel := 0, expendedEnergy := 0, elapsedTime := 0,
                  isDataValid := true } 0) ∧
    (∀ f : Byte, f.val.testBit 0 = false →
      parseHeartRateData [f, 0x46]
        = Rd.ok { heartRate := 70, isDataValid := true } 0) ∧
    (∀ f : Byte, f.val.testBit 0 = true →
      parseHeartRateData [f, 0x46, 0x00]
        = Rd.ok { heartRate := 70, isDataValid := true } 0) := by
  have clear : ∀ (f b1 : Byte) (rest : QByteArray), f.val.testBit 0 = false →
      parseHeartRateData (f :: b1 :: rest)
        = Rd.ok { heartRate := (b1.val : Int), isDataValid := true } 0 := by
    intro f b1 rest hf
    have hm : f.val % 2 = 0 := by
      rw [Nat.testBit_zero] at hf
      simpa using hf
    rw [parseHeartRateData_eq _ (by simp)]
    simp [u8, hm]
  have set : ∀ (f b1 b2 : Byte) (rest : QByteArray), f.val.testBit 0 = true →
      parseHeartRateData (f :: b1 :: b2 :: rest)
        = Rd.ok { heartRate := ((b1.val + 256 * b2.val : Nat) : Int),
                  isDataValid := true } 0 := by
    intro f b1 b2 rest hf
    have hm : f.val % 2 = 1 := by
      rw [Nat.testBit_zero] at hf
      simpa using hf
    rw [parseHeartRateData_eq _ (by simp)]
    simp [u8, uint16LE, hm]
  refine ⟨clear, set, ?_, ?_⟩
  · intro f hf
    rw [clear f 0x46 [] hf]
    rfl
  · intro f hf
    rw [set f 0x46 0x00 [] hf]
    rfl

theorem parseHeartRateData_width_witness :
    ((0x00 : Byte).val.testBit 0 = false ∧
      parseHeartRateData [0x00, 0x46] = Rd.ok { heartRate := 70, isDataValid := true } 0) ∧
    ((0x01 : Byte).val.testBit 0 = true ∧
      parseHeartRateData [0x01, 0x46, 0x00]
        = Rd.ok { heartRate := 70, isDataValid := true } 0) :=
  ⟨⟨by decide, parseHeartRateData_width.2.2.1 0x00 (by decide)⟩,
   ⟨by decide, parseHeartRateData_width.2.2.2 0x01 (by decide)⟩⟩

/-! ## Identifier classification -/

theorem foldCase_eq_iff (a b : Nat) :
    QString.foldCase a = QString.foldCase b ↔ SameLetter a b := by
  unfold QString.foldCase SameLetter
  split_ifs <;> omega

theorem compare_eq_zero_iff (s t : QString) :
    s.compareCaseInsensitive t = 0 ↔ EqUpToCase s t := by
  unfold EqUpToCase
  induction s generalizing t with
  | nil =>
    cases t with
    | nil => simp [QString.compareCaseInsensitive]
    | cons b t => simp [QString.compareCaseInsensitive]
  | cons a s ih =>
    cases t with
    | nil => simp [QString.compareCaseInsensitive]
    | cons b t =>
      rw [List.forall₂_cons, ← ih t, ← foldCase_eq_iff]
      by_cases h : QString.foldCase a = QString.foldCase b
      · simp [QString.compareCaseInsensitive, h]
      · have hne : (QString.foldCase a : Int) - (QString.foldCase b : Int) ≠ 0 := by omega
        simp [QString.compareCaseInsensitive, h, hne]

theorem compare_eq_zero_imp_map (s t : QString) (h : s.compareCaseInsensitive t = 0) :
    s.map QString.foldCase = t.map QString.foldCase := by
  rw [compare_eq_zero_iff] at h
  induction h with
  | nil => rfl
  | cons hab _ ih =>
    rw [List.map_cons, List.map_cons, ih, (foldCase_eq_iff _ _).2 hab]

/-- C9: `isValidFTMSService s` holds exactly when `s` equals
"00001826-0000-1000-8000-00805f9b34fb" up to letter case, `isValidHeartRateService s`
exactly when `s` equals "0000180d-0000-1000-8000-00805f9b34fb" up to letter case; a
string of another length, one with surrounding braces or one with another hex digit is
rejected, and no string satisfies both predicates. -/
theorem service_predicates_up_to_case :
    (∀ s : QString, isValidFTMSService s = true ↔ EqUpToCase s FTMS.SERVICE_UUID) ∧
    (∀ s : QString, isValidHeartRateService s = true ↔ EqUpToCase s HRS.SERVICE_UUID) ∧
    (∀ s : QString, ¬ (isValidFTMSService s = true ∧ isValidHeartRateService s = true)) ∧
    (∀ s : QString, s.length ≠ 36 →
      isValidFTMSService s = false ∧ isValidHeartRateService s = false) ∧
    isValidFTMSService (QString.ofLiteral "00001826-0000-1000-8000-00805F9B34FB") = true ∧
    isValidHeartRateService (QString.ofLiteral "0000180D-0000-1000-8000-00805F9B34FB") = true ∧
    isValidFTMSService (QString.ofLiteral "\x7b00001826-0000-1000-8000-00805f9b34fb\x7d")
      = false ∧
    isValidHeartRateService (QString.ofLiteral "\x7b0000180d-0000-1000-8000-00805f9b34fb\x7d")
      = false ∧
    isValidFTMSService (QString.ofLiteral "00001827-0000-1000-8000-00805f9b34fb") = false ∧
    isValidHeartRateService (QString.ofLiteral "0000180e-0000-1000-8000-00805f9b34fb")
      = false := by
  have hF : ∀ s : QString, isValidFTMSService s = true
      ↔ s.compareCaseInsensitive FTMS.SERVICE_UUID = 0 := by
    intro s
    simp [isValidFTMSService]
  have hH : ∀ s : QString, isValidHeartRateService s = true
      ↔ s.compareCaseInsensitive HRS.SERVICE_UUID = 0 := by
    intro s
    simp [isValidHeartRateService]
  refine ⟨fun s => (hF s).trans (compare_eq_zero_iff _ _),
    fun s => (hH s).trans (compare_eq_zero_iff _ _), ?_, ?_,
    by decide, by decide, by decide, by decide, by decide, by decide⟩
  · rintro s ⟨h1, h2⟩
    have e1 := compare_eq_zero_imp_map _ _ ((hF s).1 h1)
    have e2 := compare_eq_zero_imp_map _ _ ((hH s).1 h2)
    have : FTMS.SERVICE_UUID.map QString.foldCase = HRS.SERVICE_UUID.map QString.foldCase :=
      e1.symm.trans e2
    revert this
    decide
  · intro s hs
    constructor
    · by_contra hc
      have h1 : isValidFTMSService s = true := by simpa using hc
      have e1 := congrArg List.length (compare_eq_zero_imp_map _ _ ((hF s).1 h1))
      rw [List.length_map, List.length_map] at e1
      have : FTMS.SERVICE_UUID.length = 36 := by decide
      omega
    · by_contra hc
      have h1 : isValidHeartRateService s = true := by simpa using hc
      have e1 := congrArg List.length (compare_eq_zero_imp_map _ _ ((hH s).1 h1))
      rw [List.length_map, List.length_map] at e1
      have : HRS.SERVICE_UUID.length = 36 := by decide
      omega

theorem service_predicates_up_to_case_witness :
    (QString.ofLiteral "1826").length ≠ 36 ∧
    isValidFTMSService (QString.ofLiteral "1826") = false ∧
    isValidHeartRateService (QString.ofLiteral "1826") = false :=
  ⟨by decide, service_predicates_up_to_case.2.2.2.1 (QString.ofLiteral "1826") (by decide)⟩

/-! ## Device classification -/

/-- C10: for every device descriptor that lacks the Low-Energy capability flag,
`isFitnessDevice` returns false, whatever its advertised service identifiers and
whatever its name. -/
theorem isFitnessDevice_requires_low_energy (device : QBluetoothDeviceInfo)
    (h : device.coreConfigurations &&& LowEnergyCoreConfiguration = 0) :
    isFitnessDevice device = false := by
  unfold isFitnessDevice
  rw [if_pos h]

theorem isFitnessDevice_requires_low_energy_witness :
    (0x02 : Nat) &&& LowEnergyCoreConfiguration = 0 ∧
    isFitnessDevice
      { address := 0xD0F1A2B3C4D5
        name := QString.ofLiteral "Wahoo KICKR"
        coreConfigurations := 0x02
        serviceUuids := [⟨0x0000182600001000800000805f9b34fb⟩] } = false :=
  ⟨by decide,
    isFitnessDevice_requires_low_energy
      { address := 0xD0F1A2B3C4D5
        name := QString.ofLiteral "Wahoo KICKR"
        coreConfigurations := 0x02
        serviceUuids := [⟨0x0000182600001000800000805f9b34fb⟩] } (by decide)⟩

theorem startsWith_iff (s k : QString) : QString.startsWith s k = true ↔ k <+: s := by
  induction s generalizing k with
  | nil =>
    cases k with
    | nil => simp [QString.startsWith]
    | cons b k => simp [QString.startsWith]
  | cons a s ih =>
    cases k with
    | nil => simp [QString.startsWith]
    | cons b k =>
      simp only [QString.startsWith, Bool.and_eq_true, beq_iff_eq, ih, List.cons_prefix_cons]
      exact ⟨fun h => ⟨h.1.symm, h.2⟩, fun h => ⟨h.1.symm, h.2⟩⟩

/-- `QString.contains` is the substring relation. -/
theorem contains_iff (s k : QString) : QString.contains s k = true ↔ k <:+: s := by
  induction s with
  | nil =>
    simp only [QString.contains, startsWith_iff, List.prefix_nil, List.infix_nil]
  | cons a s ih =>
    simp only [QString.contains, Bool.or_eq_true, startsWith_iff, ih, List.infix_cons_iff]

/-- The string `QUuid::toString()` yields starts with a brace, so neither service
predicate accepts it. -/
theorem toString_never_valid (uuid : QBluetoothUuid) :
    isValidFTMSService uuid.toString = false ∧
    isValidHeartRateService uuid.toString = false := by
  have hF : FTMS.SERVICE_UUID = 48 :: FTMS.SERVICE_UUID.tail := by decide
  have hH : HRS.SERVICE_UUID = 48 :: HRS.SERVICE_UUID.tail := by decide
  have h1 : QString.foldCase 123 ≠ QString.foldCase 48 := by decide
  have h2 : (QString.foldCase 123 : Int) - (QString.foldCase 48 : Int) ≠ 0 := by decide
  constructor
  · unfold isValidFTMSService QBluetoothUuid.toString
    rw [hF]
    simp [QString.compareCaseInsensitive, h1, h2]
  · unfold isValidHeartRateService QBluetoothUuid.toString
    rw [hH]
    simp [QString.compareCaseInsensitive, h1, h2]

/-- A Low-Energy device is classified by its name alone. -/
theorem isFitnessDevice_low_energy (device : QBluetoothDeviceInfo)
    (hle : device.coreConfigurations &&& LowEnergyCoreConfiguration ≠ 0)
    (hsvc : ∀ u ∈ device.serviceUuids,
      isValidFTMSService u.toString = false ∧ isValidHeartRateService u.toString = false) :
    isFitnessDevice device
      = fitnessKeywords.any (fun keyword => device.name.toLower.contains keyword) := by
  have hany : device.serviceUuids.any (fun uuid =>
      isValidFTMSService uuid.toString || isValidHeartRateService uuid.toString) = false := by
    rw [List.any_eq_false]
    intro u hu
    simp [(hsvc u hu).1, (hsvc u hu).2]
  unfold isFitnessDevice
  rw [if_neg hle, hany]
  simp only [Bool.false_eq_true, if_false]
  cases fitnessKeywords.any (fun keyword => device.name.toLower.contains keyword) <;> rfl

/-- C11 (defect of the code): a Low-Energy descriptor that advertises the FTMS or the
Heart-Rate service should be accepted whatever its name.  The service test of
`isFitnessDevice` compares the braced text of `uuid.toString()` with the unbraced
constants, so it never succeeds: the verdict does not depend on the advertised
services at all, and a Low-Energy device with an empty name is rejected although it
advertises FTMS (or Heart-Rate). -/
theorem isFitnessDevice_service_match_never_fires :
    (∀ uuid : QBluetoothUuid,
      isValidFTMSService uuid.toString = false ∧
      isValidHeartRateService uuid.toString = false) ∧
    (∀ device : QBluetoothDeviceInfo,
      isFitnessDevice device
        = (decide (device.coreConfigurations &&& LowEnergyCoreConfiguration ≠ 0) &&
            fitnessKeywords.any (fun keyword => device.name.toLower.contains keyword))) ∧
    QBluetoothUuid.toString ⟨0x0000182600001000800000805f9b34fb⟩
      = QString.ofLiteral "\x7b00001826-0000-1000-8000-00805f9b34fb\x7d" ∧
    isFitnessDevice
      { address := 0xD0F1A2B3C4D5, name := [], coreConfigurations := 0x01,
        serviceUuids := [⟨0x0000182600001000800000805f9b34fb⟩] } = false ∧
    isFitnessDevice
      { address := 0xD0F1A2B3C4D5, name := QString.ofLiteral "H10",
        coreConfigurations := 0x01,
        serviceUuids := [⟨0x0000180d00001000800000805f9b34fb⟩] } = false := by
  refine ⟨toString_never_valid, ?_, by decide, by decide, by decide⟩
  intro device
  by_cases hle : device.coreConfigurations &&& LowEnergyCoreConfiguration ≠ 0
  · rw [isFitnessDevice_low_energy device hle (fun u _ => toString_never_valid u)]
    simp [hle]
  · have h0 : device.coreConfigurations &&& LowEnergyCoreConfiguration = 0 := by
      simpa using hle
    unfold isFitnessDevice
    rw [if_pos h0]
    simp [h0]

/-- C12: for every Low-Energy device descriptor none of whose advertised service
identifiers matches FTMS or Heart-Rate, `isFitnessDevice` returns true if and only if
the lower-cased device name contains, as a substring, at least one of the 18 keywords;
"KICKR CORE" is accepted and an empty name is rejected. -/
theorem isFitnessDevice_by_name (device : QBluetoothDeviceInfo)
    (hle : device.coreConfigurations &&& LowEnergyCoreConfiguration ≠ 0)
    (hsvc : ∀ u ∈ device.serviceUuids,
      isValidFTMSService u.toString = false ∧ isValidHeartRateService u.toString = false) :
    (isFitnessDevice device = true ↔
      ∃ keyword ∈ (["trainer", "bike", "zwift", "wahoo", "tacx", "elite", "kickr", "neo",
          "flux", "direto", "cycleops", "kinetic", "heart", "hr", "polar", "garmin", "chest",
          "rhythm"].map QString.ofLiteral),
        keyword <:+: device.name.toLower) ∧
    (device.name = QString.ofLiteral "KICKR CORE" → isFitnessDevice device = true) ∧
    (device.name = [] → isFitnessDevice device = false) := by
  rw [isFitnessDevice_low_energy device hle hsvc]
  refine ⟨?_, ?_, ?_⟩
  · rw [List.any_eq_true]
    simp only [contains_iff]
    rfl
  · intro hn
    rw [hn]
    decide
  · intro hn
    rw [hn]
    decide

theorem isFitnessDevice_by_name_witness :
    (0x01 : Nat) &&& LowEnergyCoreConfiguration ≠ 0 ∧
    isFitnessDevice
      { address := 0xD0F1A2B3C4D5, name := QString.ofLiteral "KICKR CORE",
        coreConfigurations := 0x01,
        serviceUuids := [⟨0x0000180f00001000800000805f9b34fb⟩] } = true :=
  ⟨by decide,
    (isFitnessDevice_by_name
      { address := 0xD0F1A2B3C4D5, name := QString.ofLiteral "KICKR CORE",
        coreConfigurations := 0x01,
        serviceUuids := [⟨0x0000180f00001000800000805f9b34fb⟩] }
      (by decide) (by decide)).2.1 rfl⟩

/-! ## The device session -/

theorem ftmsUuid_eq :
    QBluetoothUuid.ofString FTMS.SERVICE_UUID = ⟨0x0000182600001000800000805f9b34fb⟩ := by
  decide

theorem indoorBikeDataUuid_eq :
    QBluetoothUuid.ofString FTMS.INDOOR_BIKE_DATA_UUID
      = ⟨0x00002AD200001000800000805f9b34fb⟩ := by
  decide

namespace FitnessDevice

/-- The guard of `connectToDevice`: outside `Disconnected` nothing happens. -/
theorem connectToDevice_of_ne_disconnected (s : FitnessDevice)
    (h : s.m_connectionState ≠ .Disconnected) : s.connectToDevice = s := by
  unfold connectToDevice
  rw [if_pos h]

theorem errors_raise_error (s : FitnessDevice) (e : QString) :
    (s.raise (.errorOccurred e)).errors = s.errors ++ [e] := by
  simp [errors, raise, List.filterMap_append]

theorem errors_setConnectionState (s : FitnessDevice) (state : ConnectionState) :
    (s.setConnectionState state).errors = s.errors := by
  unfold setConnectionState
  split_ifs
  · rfl
  · simp [errors, raise, List.filterMap_append]

theorem state_setConnectionState (s : FitnessDevice) (state : ConnectionState) :
    (s.setConnectionState state).m_connectionState = state := by
  unfold setConnectionState
  split_ifs with h
  · exact h
  · rfl

theorem onServiceDiscoveryFinished_absent (s : FitnessDevice) (handle : Nat)
    (services : List QBluetoothUuid) (serviceObject : Option QLowEnergyService)
    (hc : s.m_controller = some handle)
    (hn : QBluetoothUuid.ofString FTMS.SERVICE_UUID ∉ services) :
    s.onServiceDiscoveryFinished services serviceObject
      = some ((s.raise (.errorOccurred
          (QString.ofLiteral "FTMS service not found on device"))).setConnectionState
          .Error) := by
  have hcont : services.contains (QBluetoothUuid.ofString FTMS.SERVICE_UUID) = false := by
    simpa using hn
  unfold onServiceDiscoveryFinished
  simp only [hc, hcont]
  rfl

theorem onServiceDiscoveryFinished_present (s : FitnessDevice) (handle : Nat)
    (services : List QBluetoothUuid) (service : QLowEnergyService)
    (hc : s.m_controller = some handle)
    (hm : QBluetoothUuid.ofString FTMS.SERVICE_UUID ∈ services) :
    s.onServiceDiscoveryFinished services (some service)
      = some { s with
          m_ftmsService := some service
          issued := s.issued ++
            [.createServiceObject handle (QBluetoothUuid.ofString FTMS.SERVICE_UUID),
             .discoverDetails] } := by
  have hcont : services.contains (QBluetoothUuid.ofString FTMS.SERVICE_UUID) = true := by
    simpa using hm
  unfold onServiceDiscoveryFinished setupFTMSService
  simp [hc, hcont, hm, issue]

end FitnessDevice

/-- The session the scripted handshake ends in when every stage succeeds. -/
theorem scriptedHandshake_eq (deviceInfo : QBluetoothDeviceInfo)
    (services : List QBluetoothUuid) (service : QLowEnergyService)
    (hsvc : QBluetoothUuid.ofString FTMS.SERVICE_UUID ∈ services)
    (hvalid : (service.characteristic
      (QBluetoothUuid.ofString FTMS.INDOOR_BIKE_DATA_UUID)).isValid = true)
    (hnotify : (service.characteristic
      (QBluetoothUuid.ofString FTMS.INDOOR_BIKE_DATA_UUID)).properties
        &&& QLowEnergyCharacteristic.Notify ≠ 0)
    (hdesc : (service.characteristic
      (QBluetoothUuid.ofString FTMS.INDOOR_BIKE_DATA_UUID)).descriptorValid = true) :
    FitnessDevice.scriptedHandshake deviceInfo services (some service)
      = some { m_deviceInfo := deviceInfo, m_controller := some 0,
               m_ftmsService := some service, m_connectionState := .Connected, created := 1,
               emitted := [.connectionStateChanged .Connecting,
                           .connectionStateChanged .Connected],
               issued := [.createCentral 0, .connectToDevice 0, .discoverServices 0,
                          .createServiceObject 0 (QBluetoothUuid.ofString FTMS.SERVICE_UUID),
                          .discoverDetails, .writeDescriptor CCCDEnableNotification] } := by
  have hc : services.contains (QBluetoothUuid.ofString FTMS.SERVICE_UUID) = true := by
    simpa using hsvc
  simp [FitnessDevice.scriptedHandshake, FitnessDevice.create,
    FitnessDevice.connectToDevice, FitnessDevice.setConnectionState, FitnessDevice.raise,
    FitnessDevice.issue, FitnessDevice.onDeviceConnected,
    FitnessDevice.onServiceDiscoveryFinished, FitnessDevice.setupFTMSService,
    FitnessDevice.onServiceStateChanged, hc, hsvc, hvalid, hnotify, hdesc]

/-- C13 (as the code has it): the scripted sequence `connectToDevice`, link established,
service discovery finished with the FTMS service present, service details discovered
with a notifiable Indoor-Bike-Data characteristic and a valid client-configuration
descriptor, emits exactly the state changes Connecting, Connected (the specification's
Streaming) and no error; the link and service stages in between are not connection
states of the session. -/
theorem scriptedHandshake_state_changes (deviceInfo : QBluetoothDeviceInfo)
    (services : List QBluetoothUuid) (service : QLowEnergyService)
    (hsvc : QBluetoothUuid.ofString FTMS.SERVICE_UUID ∈ services)
    (hvalid : (service.characteristic
      (QBluetoothUuid.ofString FTMS.INDOOR_BIKE_DATA_UUID)).isValid = true)
    (hnotify : (service.characteristic
      (QBluetoothUuid.ofString FTMS.INDOOR_BIKE_DATA_UUID)).properties
        &&& QLowEnergyCharacteristic.Notify ≠ 0)
    (hdesc : (service.characteristic
      (QBluetoothUuid.ofString FTMS.INDOOR_BIKE_DATA_UUID)).descriptorValid = true) :
    ∃ s, FitnessDevice.scriptedHandshake deviceInfo services (some service) = some s ∧
      s.stateChanges = [.Connecting, .Connected] ∧
      s.stateChanges.map ConnectionState.toSpec = [.Connecting, .Streaming] ∧
      s.errors = [] ∧
      s.m_connectionState = .Connected :=
  ⟨_, scriptedHandshake_eq deviceInfo services service hsvc hvalid hnotify hdesc,
    rfl, rfl, rfl, rfl⟩

theorem scriptedHandshake_state_changes_witness :
    ∃ s, FitnessDevice.scriptedHandshake exampleTrainer
        [⟨0x0000180a00001000800000805f9b34fb⟩, ⟨0x0000182600001000800000805f9b34fb⟩]
        (some exampleFtmsService) = some s ∧
      s.stateChanges = [.Connecting, .Connected] ∧
      s.stateChanges.map ConnectionState.toSpec = [.Connecting, .Streaming] ∧
      s.errors = [] ∧
      s.m_connectionState = .Connected :=
  scriptedHandshake_state_changes exampleTrainer
    [⟨0x0000180a00001000800000805f9b34fb⟩, ⟨0x0000182600001000800000805f9b34fb⟩]
    exampleFtmsService (by decide) (by decide) (by decide) (by decide)

/-- The scripted handshake emits two state changes, not the four of the specification. -/
theorem scriptedHandshake_not_four_states :
    (FitnessDevice.scriptedHandshake exampleTrainer [⟨0x0000182600001000800000805f9b34fb⟩]
        (some exampleFtmsService)).map
      (fun s => s.stateChanges.map ConnectionState.toSpec)
      = some [.Connecting, .Streaming] ∧
    (FitnessDevice.scriptedHandshake exampleTrainer [⟨0x0000182600001000800000805f9b34fb⟩]
        (some exampleFtmsService)).map
      (fun s => s.stateChanges.map ConnectionState.toSpec)
      ≠ some [.Connecting, .DiscoveringServices, .SubscribingNotifications, .Streaming] := by
  decide

/-- C14: calling `connectToDevice` on a session whose state is Connecting or Connected
(the specification's Streaming) is a no-op: the connection state is unchanged, no
state-changed notification is emitted, the link handle is not replaced and no new link
request is issued. -/
theorem connectToDevice_noop_when_busy (s : FitnessDevice)
    (h : s.m_connectionState = .Connecting ∨ s.m_connectionState = .Connected) :
    s.connectToDevice = s ∧
    s.connectToDevice.m_connectionState = s.m_connectionState ∧
    s.connectToDevice.emitted = s.emitted ∧
    s.connectToDevice.m_controller = s.m_controller ∧
    s.connectToDevice.issued = s.issued := by
  have hne : s.m_connectionState ≠ .Disconnected := by
    rcases h with h | h <;> rw [h] <;> decide
  rw [FitnessDevice.connectToDevice_of_ne_disconnected s hne]
  exact ⟨rfl, rfl, rfl, rfl, rfl⟩

theorem connectToDevice_noop_when_busy_witness :
    (exampleConnectingSession.m_connectionState = .Connecting ∨
      exampleConnectingSession.m_connectionState = .Connected) ∧
    exampleConnectingSession.connectToDevice = exampleConnectingSession ∧
    exampleConnectingSession.connectToDevice.issued
      = [.createCentral 0, .connectToDevice 0] :=
  ⟨by decide,
    (connectToDevice_noop_when_busy exampleConnectingSession (by decide)).1,
    by decide⟩

/-- A session in Error does not restart on `connectToDevice`. -/
theorem connectToDevice_from_error_stays :
    exampleFailedSession.m_connectionState = .Error ∧
    exampleFailedSession.connectToDevice.m_connectionState = .Error ∧
    exampleFailedSession.connectToDevice.m_connectionState ≠ .Connecting ∧
    exampleFailedSession.connectToDevice.issued = exampleFailedSession.issued ∧
    exampleFailedSession.connectToDevice.issued = [.createCentral 0, .connectToDevice 0] := by
  decide

/-- C15 (as the code has it): the guard of `connectToDevice` lets only Disconnected
through.  On a session whose state is Error the call is a no-op: the state stays Error,
nothing is emitted and no link request is issued.  From Disconnected the state becomes
Connecting, a new link object is created and asked to connect. -/
theorem connectToDevice_guard :
    (∀ s : FitnessDevice, s.m_connectionState = .Error →
      s.connectToDevice = s ∧ s.connectToDevice.m_connectionState = .Error ∧
      s.connectToDevice.emitted = s.emitted ∧ s.connectToDevice.issued = s.issued) ∧
    (∀ s : FitnessDevice, s.m_connectionState = .Disconnected →
      s.connectToDevice.m_connectionState = .Connecting ∧
      s.connectToDevice.emitted = s.emitted ++ [.connectionStateChanged .Connecting] ∧
      s.connectToDevice.m_controller = some s.created ∧
      s.connectToDevice.issued
        = s.issued ++
          (match s.m_controller with
            | some old => [.deleteController old]
            | none => []) ++
          [.createCentral s.created, .connectToDevice s.created]) := by
  constructor
  · intro s h
    have hne : s.m_connectionState ≠ .Disconnected := by rw [h]; decide
    rw [FitnessDevice.connectToDevice_of_ne_disconnected s hne]
    exact ⟨rfl, h, rfl, rfl⟩
  · intro s h
    cases hc : s.m_controller <;>
      simp [FitnessDevice.connectToDevice, FitnessDevice.setConnectionState,
        FitnessDevice.raise, FitnessDevice.issue, h, hc]

theorem connectToDevice_guard_witness :
    (exampleFailedSession.m_connectionState = .Error ∧
      exampleFailedSession.connectToDevice = exampleFailedSession) ∧
    ((FitnessDevice.create exampleTrainer).m_connectionState = .Disconnected ∧
      (FitnessDevice.create exampleTrainer).connectToDevice.m_connectionState
        = .Connecting) :=
  ⟨⟨by decide, (connectToDevice_guard.1 exampleFailedSession (by decide)).1⟩,
   ⟨by decide, (connectToDevice_guard.2 (FitnessDevice.create exampleTrainer) (by decide)).1⟩⟩

/-- After `disconnectFromDevice` returns on a streaming session, the state is still
Connected, the service handle is still held, and a second call issues another request;
on a session in Error the state is still Error. -/
theorem disconnectFromDevice_returns_connected :
    (FitnessDevice.scriptedHandshake exampleTrainer [⟨0x0000182600001000800000805f9b34fb⟩]
        (some exampleFtmsService)).map
      (fun s => (s.m_connectionState, s.disconnectFromDevice.m_connectionState,
        s.disconnectFromDevice.m_ftmsService.isSome,
        decide (s.disconnectFromDevice.disconnectFromDevice = s.disconnectFromDevice)))
      = some (.Connected, .Connected, true, false) ∧
    exampleFailedSession.m_connectionState = .Error ∧
    exampleFailedSession.disconnectFromDevice.m_connectionState = .Error ∧
    exampleFailedSession.disconnectFromDevice.m_connectionState ≠ .Disconnected := by
  decide

/-- C16 (as the code has it): `disconnectFromDevice` changes neither the connection
state nor the service handle and emits nothing; it only asks the link to disconnect,
when there is a link handle and the state is not Disconnected.  It is the disconnected
callback of the link, `onDeviceDisconnected`, that from every connection state, with or
without a link handle, leaves the session Disconnected with the service handle
released; run a second time in a row it changes nothing. -/
theorem disconnect_is_request_then_callback (s : FitnessDevice) :
    (s.disconnectFromDevice.m_connectionState = s.m_connectionState ∧
      s.disconnectFromDevice.m_ftmsService = s.m_ftmsService ∧
      s.disconnectFromDevice.m_controller = s.m_controller ∧
      s.disconnectFromDevice.emitted = s.emitted ∧
      s.disconnectFromDevice.issued
        = s.issued ++
          (match s.m_controller with
            | some handle =>
              if s.m_connectionState ≠ .Disconnected then [.disconnectFromDevice handle]
              else []
            | none => [])) ∧
    (s.onDeviceDisconnected.m_connectionState = .Disconnected ∧
      s.onDeviceDisconnected.m_ftmsService = none ∧
      s.onDeviceDisconnected.onDeviceDisconnected = s.onDeviceDisconnected) := by
  constructor
  · unfold FitnessDevice.disconnectFromDevice
    cases hc : s.m_controller with
    | none => simp [hc]
    | some handle =>
      by_cases hd : s.m_connectionState ≠ .Disconnected
      · simp [hd, hc, FitnessDevice.issue]
      · simp [hd, hc]
  · by_cases hd : s.m_connectionState = .Disconnected <;>
      cases hf : s.m_ftmsService <;>
      simp [FitnessDevice.onDeviceDisconnected, FitnessDevice.setConnectionState,
        FitnessDevice.raise, FitnessDevice.issue, hd, hf]

/-- What `onServiceDiscoveryFinished` emits when FTMS is missing, and when FTMS is
listed but no service object can be made. -/
theorem onServiceDiscoveryFinished_messages :
    (exampleConnectingSession.onServiceDiscoveryFinished [] none).map
        (fun s => (s.m_connectionState, s.errors))
      = some (.Error, [QString.ofLiteral "FTMS service not found on device"]) ∧
    (exampleConnectingSession.onServiceDiscoveryFinished [] none).map
        (fun s => (s.m_connectionState, s.errors))
      ≠ some (.Error, [QString.ofLiteral "FTMS service not found"]) ∧
    (exampleConnectingSession.onServiceDiscoveryFinished
        [⟨0x0000182600001000800000805f9b34fb⟩] none).map
        (fun s => (s.m_connectionState, s.errors))
      = some (.Error, [QString.ofLiteral "Failed to create FTMS service"]) := by
  decide

/-- C17 (as the code has it): when service enumeration completes and the FTMS service
identifier is not among the discovered services, the session moves to state Error and
emits exactly one error notification, whose message is "FTMS service not found on
device"; when the FTMS service is present and its service object is created, no error
is emitted at that step and the state is unchanged. -/
theorem onServiceDiscoveryFinished_error (s : FitnessDevice) (handle : Nat)
    (services : List QBluetoothUuid) (hc : s.m_controller = some handle) :
    (QBluetoothUuid.ofString FTMS.SERVICE_UUID ∉ services →
      ∀ serviceObject, ∃ t,
        s.onServiceDiscoveryFinished services serviceObject = some t ∧
        t.m_connectionState = .Error ∧
        t.errors = s.errors ++ [QString.ofLiteral "FTMS service not found on device"]) ∧
    (QBluetoothUuid.ofString FTMS.SERVICE_UUID ∈ services →
      ∀ service, ∃ t,
        s.onServiceDiscoveryFinished services (some service) = some t ∧
        t.errors = s.errors ∧
        t.m_connectionState = s.m_connectionState ∧
        t.m_ftmsService = some service) := by
  constructor
  · intro hn serviceObject
    refine ⟨_, FitnessDevice.onServiceDiscoveryFinished_absent s handle services
      serviceObject hc hn, ?_, ?_⟩
    · exact FitnessDevice.state_setConnectionState _ _
    · rw [FitnessDevice.errors_setConnectionState, FitnessDevice.errors_raise_error]
  · intro hm service
    exact ⟨_, FitnessDevice.onServiceDiscoveryFinished_present s handle services service
      hc hm, rfl, rfl, rfl⟩

theorem onServiceDiscoveryFinished_error_witness :
    exampleConnectingSession.m_controller = some 0 ∧
    (QBluetoothUuid.ofString FTMS.SERVICE_UUID ∉ [⟨0x0000180a00001000800000805f9b34fb⟩] ∧
      ∃ t, exampleConnectingSession.onServiceDiscoveryFinished
          [⟨0x0000180a00001000800000805f9b34fb⟩] none = some t ∧
        t.m_connectionState = .Error ∧
        t.errors = exampleConnectingSession.errors
          ++ [QString.ofLiteral "FTMS service not found on device"]) ∧
    (QBluetoothUuid.ofString FTMS.SERVICE_UUID ∈ [⟨0x0000182600001000800000805f9b34fb⟩] ∧
      ∃ t, exampleConnectingSession.onServiceDiscoveryFinished
          [⟨0x0000182600001000800000805f9b34fb⟩] (some exampleFtmsService) = some t ∧
        t.errors = exampleConnectingSession.errors ∧
        t.m_connectionState = exampleConnectingSession.m_connectionState ∧
        t.m_ftmsService = some exampleFtmsService) :=
  ⟨by decide,
   ⟨by decide,
    (onServiceDiscoveryFinished_error exampleConnectingSession 0
      [⟨0x0000180a00001000800000805f9b34fb⟩] (by decide)).1 (by decide) none⟩,
   ⟨by decide,
    (onServiceDiscoveryFinished_error exampleConnectingSession 0
      [⟨0x0000182600001000800000805f9b34fb⟩] (by decide)).2 (by decide) exampleFtmsService⟩⟩

/-- With the Indoor-Bike-Data characteristic absent, the session stays Connecting and
emits no error. -/
theorem onServiceStateChanged_absent_stays :
    (exampleFtmsService.characteristic
        (QBluetoothUuid.ofString FTMS.INDOOR_BIKE_DATA_UUID)).isValid = true ∧
    (QLowEnergyService.characteristic ⟨[]⟩
        (QBluetoothUuid.ofString FTMS.INDOOR_BIKE_DATA_UUID)).isValid = false ∧
    (FitnessDevice.scriptedHandshake exampleTrainer [⟨0x0000182600001000800000805f9b34fb⟩]
        (some ⟨[]⟩)).map (fun s => (s.m_connectionState, s.errors))
      = some (.Connecting, []) ∧
    (FitnessDevice.scriptedHandshake exampleTrainer [⟨0x0000182600001000800000805f9b34fb⟩]
        (some ⟨[]⟩)).map (fun s => s.m_connectionState)
      ≠ some .Error := by
  decide

/-- C18 (as the code has it): when the details of the FTMS service have been
discovered: if the Indoor-Bike-Data characteristic is absent, or present but without
the notify capability, the session stays as it is, with no state change and no error
emitted; if it is present and notifiable with a valid client-configuration descriptor,
the descriptor write is issued and the session moves to Connected (the specification's
Streaming). -/
theorem onServiceStateChanged_discovered (s : FitnessDevice) (service : QLowEnergyService)
    (hs : s.m_ftmsService = some service) :
    ((service.characteristic
        (QBluetoothUuid.ofString FTMS.INDOOR_BIKE_DATA_UUID)).isValid = false →
      s.onServiceStateChanged .RemoteServiceDiscovered = some s) ∧
    ((service.characteristic
        (QBluetoothUuid.ofString FTMS.INDOOR_BIKE_DATA_UUID)).isValid = true →
      (service.characteristic
        (QBluetoothUuid.ofString FTMS.INDOOR_BIKE_DATA_UUID)).properties
          &&& QLowEnergyCharacteristic.Notify = 0 →
      s.onServiceStateChanged .RemoteServiceDiscovered = some s) ∧
    ((service.characteristic
        (QBluetoothUuid.ofString FTMS.INDOOR_BIKE_DATA_UUID)).isValid = true →
      (service.characteristic
        (QBluetoothUuid.ofString FTMS.INDOOR_BIKE_DATA_UUID)).properties
          &&& QLowEnergyCharacteristic.Notify ≠ 0 →
      (service.characteristic
        (QBluetoothUuid.ofString FTMS.INDOOR_BIKE_DATA_UUID)).descriptorValid = true →
      ∃ t, s.onServiceStateChanged .RemoteServiceDiscovered = some t ∧
        t.m_connectionState = .Connected ∧
        t.issued = s.issued ++ [.writeDescriptor CCCDEnableNotification] ∧
        t.errors = s.errors) := by
  refine ⟨?_, ?_, ?_⟩
  · intro hv
    simp [FitnessDevice.onServiceStateChanged, hs, hv]
  · intro hv hn
    simp [FitnessDevice.onServiceStateChanged, hs, hv, hn]
  · intro hv hn hd
    refine ⟨(s.issue (.writeDescriptor CCCDEnableNotification)).setConnectionState
      .Connected, ?_, ?_, ?_, ?_⟩
    · simp [FitnessDevice.onServiceStateChanged, hs, hv, hn, hd]
    · exact FitnessDevice.state_setConnectionState _ _
    · unfold FitnessDevice.setConnectionState
      split_ifs <;> rfl
    · rw [FitnessDevice.errors_setConnectionState]
      rfl

theorem onServiceStateChanged_discovered_witness :
    exampleConnectingSession.m_ftmsService = none ∧
    ({ exampleConnectingSession with m_ftmsService := some exampleFtmsService } :
        FitnessDevice).m_ftmsService = some exampleFtmsService ∧
    ∃ t, FitnessDevice.onServiceStateChanged
        { exampleConnectingSession with m_ftmsService := some exampleFtmsService }
        .RemoteServiceDiscovered = some t ∧
      t.m_connectionState = .Connected ∧
      t.issued = [.createCentral 0, .connectToDevice 0]
        ++ [.writeDescriptor CCCDEnableNotification] ∧
      t.errors = [] :=
  ⟨by decide, by decide,
    (onServiceStateChanged_discovered
      { exampleConnectingSession with m_ftmsService := some exampleFtmsService }
      exampleFtmsService (by decide)).2.2 (by decide) (by decide) (by decide)⟩

/-- C19: for every notification on the Indoor-Bike-Data characteristic, the session
emits exactly one sample notification carrying `parseIndoorBikeData value` when that
decode is valid (the value has at least 4 bytes), and emits nothing when it is invalid;
in both cases the connection state is unchanged and no error notification is emitted. -/
theorem onCharacteristicChanged_indoorBikeData (s : FitnessDevice)
    (characteristic : QLowEnergyCharacteristic) (value : QByteArray)
    (hu : characteristic.uuid = QBluetoothUuid.ofString FTMS.INDOOR_BIKE_DATA_UUID) :
    (4 ≤ value.length →
      ∃ data, parseIndoorBikeData value = Rd.ok data 0 ∧ data.isDataValid = true ∧
        s.onCharacteristicChanged characteristic value
          = Rd.ok { s with emitted := s.emitted ++ [.dataReceived data] } 0) ∧
    (value.length < 4 →
      ∃ data, parseIndoorBikeData value = Rd.ok data 0 ∧ data.isDataValid = false ∧
        s.onCharacteristicChanged characteristic value = Rd.ok s 0) := by
  constructor
  · intro h4
    refine ⟨_, parseIndoorBikeData_eq_fold value h4, rfl, ?_⟩
    unfold FitnessDevice.onCharacteristicChanged
    rw [if_pos hu, parseIndoorBikeData_eq_fold value h4, Rd.ok_zero_bind]
    rfl
  · intro h4
    refine ⟨_, parseIndoorBikeData_short value h4, rfl, ?_⟩
    unfold FitnessDevice.onCharacteristicChanged
    rw [if_pos hu, parseIndoorBikeData_short value h4, Rd.ok_zero_bind]
    rfl

theorem onCharacteristicChanged_indoorBikeData_witness :
    exampleIndoorBikeData.uuid = QBluetoothUuid.ofString FTMS.INDOOR_BIKE_DATA_UUID ∧
    (4 ≤ ([0x00, 0x00, 0x64, 0x00] : QByteArray).length ∧
      ∃ data, parseIndoorBikeData [0x00, 0x00, 0x64, 0x00] = Rd.ok data 0 ∧
        data.isDataValid = true ∧
        exampleStreamingSession.onCharacteristicChanged exampleIndoorBikeData
            [0x00, 0x00, 0x64, 0x00]
          = Rd.ok { exampleStreamingSession with
              emitted := exampleStreamingSession.emitted ++ [.dataReceived data] } 0) ∧
    (([0x00, 0x00, 0x64] : QByteArray).length < 4 ∧
      ∃ data, parseIndoorBikeData [0x00, 0x00, 0x64] = Rd.ok data 0 ∧
        data.isDataValid = false ∧
        exampleStreamingSession.onCharacteristicChanged exampleIndoorBikeData
            [0x00, 0x00, 0x64] = Rd.ok exampleStreamingSession 0) :=
  ⟨by decide,
   ⟨by decide,
    (onCharacteristicChanged_indoorBikeData exampleStreamingSession exampleIndoorBikeData
      [0x00, 0x00, 0x64, 0x00] (by decide)).1 (by decide)⟩,
   ⟨by decide,
    (onCharacteristicChanged_indoorBikeData exampleStreamingSession exampleIndoorBikeData
      [0x00, 0x00, 0x64] (by decide)).2 (by decide)⟩⟩

/-- A valid Heart-Rate measurement that reaches the session is dropped. -/
theorem onCharacteristicChanged_heartRate_dropped :
    exampleHeartRateMeasurement.uuid
      = QBluetoothUuid.ofString HRS.HEART_RATE_MEASUREMENT_UUID ∧
    exampleStreamingSession.m_connectionState = .Connected ∧
    parseHeartRateData [0x00, 0x46] = Rd.ok { heartRate := 70, isDataValid := true } 0 ∧
    exampleStreamingSession.onCharacteristicChanged exampleHeartRateMeasurement [0x00, 0x46]
      = Rd.ok exampleStreamingSession 0 ∧
    (exampleStreamingSession.onCharacteristicChanged exampleHeartRateMeasurement
        [0x00, 0x46]).andThen (fun t => Rd.ok t.samples 0)
      = Rd.ok [] 0 := by
  refine ⟨by decide, by decide, ?_, ?_, ?_⟩
  · rw [parseHeartRateData_eq _ (by decide)]
    rfl
  · decide
  · decide

/-- C20 (as the code has it): inbound notifications are routed by characteristic
identifier, and the only route is the Indoor-Bike-Data one.  A notification on any
other characteristic, the Heart-Rate measurement characteristic included, is ignored:
`parseHeartRateData` is not called, nothing is emitted and the session is unchanged. -/
theorem onCharacteristicChanged_other (s : FitnessDevice)
    (characteristic : QLowEnergyCharacteristic) (value : QByteArray) :
    (characteristic.uuid ≠ QBluetoothUuid.ofString FTMS.INDOOR_BIKE_DATA_UUID →
      s.onCharacteristicChanged characteristic value = Rd.ok s 0) ∧
    (characteristic.uuid = QBluetoothUuid.ofString HRS.HEART_RATE_MEASUREMENT_UUID →
      s.onCharacteristicChanged characteristic value = Rd.ok s 0) := by
  have key : characteristic.uuid ≠ QBluetoothUuid.ofString FTMS.INDOOR_BIKE_DATA_UUID →
      s.onCharacteristicChanged characteristic value = Rd.ok s 0 := by
    intro hne
    unfold FitnessDevice.onCharacteristicChanged
    rw [if_neg hne]
    rfl
  refine ⟨key, fun hu => key ?_⟩
  rw [hu]
  decide

theorem onCharacteristicChanged_other_witness :
    exampleHeartRateMeasurement.uuid
      = QBluetoothUuid.ofString HRS.HEART_RATE_MEASUREMENT_UUID ∧
    exampleStreamingSession.onCharacteristicChanged exampleHeartRateMeasurement
        [0x01, 0x46, 0x00] = Rd.ok exampleStreamingSession 0 :=
  ⟨by decide,
    (onCharacteristicChanged_other exampleStreamingSession exampleHeartRateMeasurement
      [0x01, 0x46, 0x00]).2 (by decide)⟩

/-! ## Truncated fields and skipped data -/

/-- A 6-byte frame that flags total distance and heart rate. -/
theorem parseIndoorBikeData_distance_heartRate_frame (b2 b3 b4 b5 : Byte) :
    parseIndoorBikeData [0x10, 0x02, b2, b3, b4, b5]
      = Rd.ok { speed := ((b2.val + 256 * b3.val : Nat) : ℚ) / 100
                distance := 0
                heartRate := (b4.val : Int)
                isDataValid := true } 0 := by
  rw [parseIndoorBikeData_eq_fold _ (by simp)]
  have h10 : ((0x10 : Byte) : Nat) = 16 := rfl
  have h02 : ((0x02 : Byte) : Nat) = 2 := rfl
  simp +decide [foldCursor, Field.order, Field.step, Field.mask, Field.width, Field.store,
    cursorStart, uint16LE, u8, h10, h02, AverageSpeedPresent, InstantaneousCadencePresent,
    AverageCadencePresent, TotalDistancePresent, ResistanceLevelPresent,
    InstantaneousPowerPresent, AveragePowerPresent, ExpendedEnergyPresent, HeartRatePresent,
    MetabolicEquivalentPresent, ElapsedTimePresent]

/-- A frame that flags expended energy and elapsed time and has two bytes after the
speed. -/
theorem parseIndoorBikeData_energy_elapsed_frame6 (b2 b3 b4 b5 : Byte) :
    parseIndoorBikeData [0x00, 0x09, b2, b3, b4, b5]
      = Rd.ok { speed := ((b2.val + 256 * b3.val : Nat) : ℚ) / 100
                expendedEnergy := 0
                elapsedTime := b4.val + 256 * b5.val
                isDataValid := true } 0 := by
  rw [parseIndoorBikeData_eq_fold _ (by simp)]
  have h09 : ((0x09 : Byte) : Nat) = 9 := rfl
  simp +decide [foldCursor, Field.order, Field.step, Field.mask, Field.width, Field.store,
    cursorStart, uint16LE, u8, h09, AverageSpeedPresent, InstantaneousCadencePresent,
    AverageCadencePresent, TotalDistancePresent, ResistanceLevelPresent,
    InstantaneousPowerPresent, AveragePowerPresent, ExpendedEnergyPresent, HeartRatePresent,
    MetabolicEquivalentPresent, ElapsedTimePresent]

/-- The same with three bytes after the speed. -/
theorem parseIndoorBikeData_energy_elapsed_frame7 (b2 b3 b4 b5 b6 : Byte) :
    parseIndoorBikeData [0x00, 0x09, b2, b3, b4, b5, b6]
      = Rd.ok { speed := ((b2.val + 256 * b3.val : Nat) : ℚ) / 100
                expendedEnergy := 0
                elapsedTime := b4.val + 256 * b5.val
                isDataValid := true } 0 := by
  rw [parseIndoorBikeData_eq_fold _ (by simp)]
  have h09 : ((0x09 : Byte) : Nat) = 9 := rfl
  simp +decide [foldCursor, Field.order, Field.step, Field.mask, Field.width, Field.store,
    cursorStart, uint16LE, u8, h09, AverageSpeedPresent, InstantaneousCadencePresent,
    AverageCadencePresent, TotalDistancePresent, ResistanceLevelPresent,
    InstantaneousPowerPresent, AveragePowerPresent, ExpendedEnergyPresent, HeartRatePresent,
    MetabolicEquivalentPresent, ElapsedTimePresent]

/-- A block whose field does not fit leaves the cursor where it was. -/
theorem cursorAfter_truncated (data : QByteArray) (h : 4 ≤ data.length) (f : Field)
    (c : Cursor) (hc : cursorReaching data f = Rd.ok c 0)
    (htr : data.length < c.offset + f.width) :
    cursorAfter data (f.preceding ++ [f]) = Rd.ok c 0 := by
  rw [cursorReaching, cursorAfter_eq_fold data h] at hc
  injection hc with hc _
  rw [cursorAfter_eq_fold data h, foldCursor_split, List.foldl_nil, hc,
    step_of_truncated _ _ _ _ htr]

/-- With energy truncated and neither heart rate nor metabolic equivalent flagged, the
elapsed-time block reads at the energy offset. -/
theorem foldCursor_energy_truncated (data : QByteArray)
    (hHR : Field.heartRate.announced (uint16LE data 0) = false)
    (hME : Field.metabolicEquivalent.announced (uint16LE data 0) = false)
    (hT : Field.elapsedTime.announced (uint16LE data 0) = true)
    (hlo : (foldCursor data Field.energy.preceding).offset + 2 ≤ data.length)
    (hhi : data.length < (foldCursor data Field.energy.preceding).offset + 4) :
    (foldCursor data Field.order).result.expendedEnergy = 0 ∧
    (foldCursor data Field.order).result.elapsedTime
      = uint16LE data (foldCursor data Field.energy.preceding).offset := by
  have ho : Field.order
      = Field.energy.preceding ++ Field.energy ::
          [Field.heartRate, Field.metabolicEquivalent, Field.elapsedTime] := rfl
  have hfold : foldCursor data Field.order
      = Field.elapsedTime.step data (uint16LE data 0)
          (foldCursor data Field.energy.preceding) := by
    rw [ho, foldCursor_split, step_of_truncated _ _ Field.energy _ hhi]
    simp only [List.foldl_cons, List.foldl_nil]
    rw [step_of_not_announced _ _ _ _ hHR, step_of_not_announced _ _ _ _ hME]
  have hzero : (foldCursor data Field.energy.preceding).result.expendedEnergy = 0 := by
    have hs : Field.energy.surfaced (foldCursor data Field.energy.preceding).result
        = Field.energy.surfaced (cursorStart data).result :=
      surfaced_foldl_of_not_mem _ _ _ _ _ (by decide)
    exact surfaced_start data Field.energy _ hs.symm
  rw [hfold, step_of_fits _ _ _ _ hT hlo]
  exact ⟨hzero, rfl⟩

/-- C23: when a flagged field does not fit in the remaining bytes, the decoder does
not advance the running offset and keeps decoding the later flagged fields, so a later,
narrower field is read from the bytes of the truncated one: for every 6-byte buffer with
flags 0x0210 (total distance, heart rate), distance stays 0 and heartRate = byte 4; for
every frame that flags expended energy and elapsed time with only 2 or 3 bytes left at
the energy offset, expendedEnergy stays 0 and elapsedTime = the uint16LE at the energy
offset. -/
theorem parseIndoorBikeData_truncated_bytes_reused :
    (∀ (data : QByteArray) (f : Field) (c : Cursor), 4 ≤ data.length →
      cursorReaching data f = Rd.ok c 0 → data.length < c.offset + f.width →
      cursorAfter data (f.preceding ++ [f]) = Rd.ok c 0) ∧
    (∀ b2 b3 b4 b5 : Byte, ∃ r,
      parseIndoorBikeData [0x10, 0x02, b2, b3, b4, b5] = Rd.ok r 0 ∧
      r.distance = 0 ∧ r.heartRate = (b4.val : Int)) ∧
    (∀ b2 b3 b4 b5 : Byte, ∃ r,
      parseIndoorBikeData [0x00, 0x09, b2, b3, b4, b5] = Rd.ok r 0 ∧
      r.expendedEnergy = 0 ∧ r.elapsedTime = b4.val + 256 * b5.val) ∧
    (∀ b2 b3 b4 b5 b6 : Byte, ∃ r,
      parseIndoorBikeData [0x00, 0x09, b2, b3, b4, b5, b6] = Rd.ok r 0 ∧
      r.expendedEnergy = 0 ∧ r.elapsedTime = b4.val + 256 * b5.val) ∧
    (∀ (data : QByteArray) (c : Cursor), 4 ≤ data.length →
      Field.energy.announced (uint16LE data 0) = true →
      Field.elapsedTime.announced (uint16LE data 0) = true →
      Field.heartRate.announced (uint16LE data 0) = false →
      Field.metabolicEquivalent.announced (uint16LE data 0) = false →
      cursorReaching data .energy = Rd.ok c 0 →
      c.offset + 2 ≤ data.length → data.length < c.offset + 4 →
      ∃ r, parseIndoorBikeData data = Rd.ok r 0 ∧
        r.expendedEnergy = 0 ∧ r.elapsedTime = uint16LE data c.offset) := by
  refine ⟨?_, ?_, ?_, ?_, ?_⟩
  · intro data f c h hc htr
    exact cursorAfter_truncated data h f c hc htr
  · intro b2 b3 b4 b5
    exact ⟨_, parseIndoorBikeData_distance_heartRate_frame b2 b3 b4 b5, rfl, rfl⟩
  · intro b2 b3 b4 b5
    exact ⟨_, parseIndoorBikeData_energy_elapsed_frame6 b2 b3 b4 b5, rfl, rfl⟩
  · intro b2 b3 b4 b5 b6
    exact ⟨_, parseIndoorBikeData_energy_elapsed_frame7 b2 b3 b4 b5 b6, rfl, rfl⟩
  · intro data c h _ hT hHR hME hc hlo hhi
    rw [cursorReaching, cursorAfter_eq_fold data h] at hc
    injection hc with hc _
    subst hc
    have key := foldCursor_energy_truncated data hHR hME hT hlo hhi
    exact ⟨_, parseIndoorBikeData_eq_fold data h, key.1, key.2⟩

theorem parseIndoorBikeData_truncated_bytes_reused_witness :
    4 ≤ ([0x02, 0x09, 0x64, 0x00, 0x2C, 0x01, 0x3C, 0x00, 0x7F] : QByteArray).length ∧
    (foldCursor [0x02, 0x09, 0x64, 0x00, 0x2C, 0x01, 0x3C, 0x00, 0x7F]
      Field.energy.preceding).offset = 6 ∧
    uint16LE [0x02, 0x09, 0x64, 0x00, 0x2C, 0x01, 0x3C, 0x00, 0x7F] 6 = 60 ∧
    ∃ r, parseIndoorBikeData [0x02, 0x09, 0x64, 0x00, 0x2C, 0x01, 0x3C, 0x00, 0x7F]
        = Rd.ok r 0 ∧
      r.expendedEnergy = 0 ∧
      r.elapsedTime = uint16LE [0x02, 0x09, 0x64, 0x00, 0x2C, 0x01, 0x3C, 0x00, 0x7F]
        (foldCursor [0x02, 0x09, 0x64, 0x00, 0x2C, 0x01, 0x3C, 0x00, 0x7F]
          Field.energy.preceding).offset :=
  ⟨by decide, by decide, by decide,
    parseIndoorBikeData_truncated_bytes_reused.2.2.2.2
      [0x02, 0x09, 0x64, 0x00, 0x2C, 0x01, 0x3C, 0x00, 0x7F] _ (by decide) (by decide)
      (by decide) (by decide) (by decide)
      (cursorAfter_eq_fold _ (by decide) Field.energy.preceding) (by decide) (by decide)⟩

/-- What a block stores depends only on the bytes it keeps. -/
theorem store_congr (d1 d2 : QByteArray) (off : Nat) (r : TrainerData) (f : Field)
    (h : ∀ i, off ≤ i → i < off + f.kept → u8 d1 i = u8 d2 i) :
    f.store d1 off r = f.store d2 off r := by
  cases f <;> simp only [Field.kept] at h <;>
    first
    | rfl
    | (have h0 := h off (le_refl _) (by omega)
       have h1 := h (off + 1) (by omega) (by omega)
       have h2 := h (off + 2) (by omega) (by omega)
       simp [Field.store, uint24LE, h0, h1, h2])
    | (have h0 := h off (le_refl _) (by omega)
       have h1 := h (off + 1) (by omega) (by omega)
       simp [Field.store, uint16LE, int16LE, h0, h1])
    | (have h0 := h off (le_refl _) (by omega)
       simp [Field.store, h0])

/-- Two buffers that agree on length, on the flag bits of the fields and on the bytes
the block of `f` keeps are taken by that block from equal cursors to equal cursors. -/
theorem step_congr (d1 d2 : QByteArray) (h4 : 4 ≤ d1.length)
    (hlen : d1.length = d2.length)
    (hflags : ∀ f : Field, f.announced (uint16LE d1 0) = f.announced (uint16LE d2 0))
    (hstored : ∀ f : Field, ∀ i ∈ storedAt d1 f, u8 d1 i = u8 d2 i)
    (f : Field) (hpre : foldCursor d1 f.preceding = foldCursor d2 f.preceding) :
    foldCursor d1 (f.preceding ++ [f]) = foldCursor d2 (f.preceding ++ [f]) := by
  rw [foldCursor_split, foldCursor_split, List.foldl_nil, List.foldl_nil, ← hpre]
  cases ha : f.announced (uint16LE d1 0)
  · rw [step_of_not_announced _ _ _ _ ha,
      step_of_not_announced _ _ _ _ ((hflags f).symm.trans ha)]
  · by_cases hfit : (foldCursor d1 f.preceding).offset + f.width ≤ d1.length
    · rw [step_of_fits _ _ _ _ ha hfit,
        step_of_fits _ _ _ _ ((hflags f).symm.trans ha) (hlen ▸ hfit)]
      have hst : storedAt d1 f
          = List.range' (foldCursor d1 f.preceding).offset f.kept := by
        unfold storedAt
        rw [cursorReaching, cursorAfter_eq_fold d1 h4]
        simp [ha, hfit]
      rw [store_congr d1 d2 _ _ f (fun i hlo hhi =>
        hstored f i (by rw [hst, List.mem_range'_1]; exact ⟨hlo, hhi⟩))]
    · rw [step_of_truncated _ _ _ _ (by omega),
        step_of_truncated _ _ _ _ (by omega)]

/-- What membership in `storedAt` means. -/
theorem storedAt_mem (data : QByteArray) (f : Field) (i : Nat) (hi : i ∈ storedAt data f) :
    ∃ c g, cursorReaching data f = Rd.ok c g ∧
      f.announced (uint16LE data 0) = true ∧ c.offset + f.width ≤ data.length ∧
      c.offset ≤ i ∧ i < c.offset + f.kept := by
  unfold storedAt at hi
  split at hi
  · rename_i c g hc
    split_ifs at hi with hcond
    · rw [List.mem_range'_1] at hi
      exact ⟨c, g, hc, hcond.1, hcond.2, hi.1, hi.2⟩
    · simp at hi
  · simp at hi

/-- On a buffer that holds every flagged field, the kept bytes of a flagged field are
the leading bytes at its offset in the field table. -/
theorem storedAt_of_complete (data : QByteArray) (h4 : 4 ≤ data.length)
    (hlen : frameLength (uint16LE data 0) ≤ data.length) (f : Field) :
    storedAt data f
      = if f.announced (uint16LE data 0) = true then
          List.range' (f.offsetIn (uint16LE data 0)) f.kept
        else [] := by
  obtain ⟨hoff, hfit⟩ := foldCursor_offset_preceding data f hlen
  unfold storedAt
  rw [cursorReaching, cursorAfter_eq_fold data h4]
  cases ha : f.announced (uint16LE data 0)
  · simp
  · have hn : f.need (uint16LE data 0) = f.width := by simp [Field.need, ha]
    have hw : (foldCursor data f.preceding).offset + f.width ≤ data.length := by omega
    simp only [hw, and_self, if_true]
    rw [hoff]

/-- Nothing is kept of a skipped field. -/
theorem storedAt_skipped (data : QByteArray) :
    storedAt data .averageSpeed = [] ∧ storedAt data .averageCadence = [] ∧
    storedAt data .averagePower = [] ∧ storedAt data .metabolicEquivalent = [] := by
  refine ⟨?_, ?_, ?_, ?_⟩ <;>
    · unfold storedAt
      split
      · split_ifs <;> rfl
      · rfl

/-- Two buffers that agree on length, on the flag bits of the fields, on the speed bytes
and on the bytes the blocks keep run through the blocks to the same cursor. -/
theorem foldCursor_congr (d1 d2 : QByteArray) (h4 : 4 ≤ d1.length)
    (hlen : d1.length = d2.length)
    (hflags : ∀ f : Field, f.announced (uint16LE d1 0) = f.announced (uint16LE d2 0))
    (h2 : u8 d1 2 = u8 d2 2) (h3 : u8 d1 3 = u8 d2 3)
    (hstored : ∀ f : Field, ∀ i ∈ storedAt d1 f, u8 d1 i = u8 d2 i) :
    foldCursor d1 Field.order = foldCursor d2 Field.order := by
  have s0 : foldCursor d1 [] = foldCursor d2 [] := by
    simp [foldCursor, cursorStart, uint16LE, h2, h3]
  have s1 : foldCursor d1 [.averageSpeed] = foldCursor d2 [.averageSpeed] :=
    step_congr d1 d2 h4 hlen hflags hstored .averageSpeed s0
  have s2 : foldCursor d1 [.averageSpeed, .cadence]
      = foldCursor d2 [.averageSpeed, .cadence] :=
    step_congr d1 d2 h4 hlen hflags hstored .cadence s1
  have s3 : foldCursor d1 [.averageSpeed, .cadence, .averageCadence]
      = foldCursor d2 [.averageSpeed, .cadence, .averageCadence] :=
    step_congr d1 d2 h4 hlen hflags hstored .averageCadence s2
  have s4 : foldCursor d1 [.averageSpeed, .cadence, .averageCadence, .distance]
      = foldCursor d2 [.averageSpeed, .cadence, .averageCadence, .distance] :=
    step_congr d1 d2 h4 hlen hflags hstored .distance s3
  have s5 : foldCursor d1 [.averageSpeed, .cadence, .averageCadence, .distance, .resistance]
      = foldCursor d2 [.averageSpeed, .cadence, .averageCadence, .distance, .resistance] :=
    step_congr d1 d2 h4 hlen hflags hstored .resistance s4
  have s6 : foldCursor d1
        [.averageSpeed, .cadence, .averageCadence, .distance, .resistance, .power]
      = foldCursor d2
        [.averageSpeed, .cadence, .averageCadence, .distance, .resistance, .power] :=
    step_congr d1 d2 h4 hlen hflags hstored .power s5
  have s7 : foldCursor d1
        [.averageSpeed, .cadence, .averageCadence, .distance, .resistance, .power,
         .averagePower]
      = foldCursor d2
        [.averageSpeed, .cadence, .averageCadence, .distance, .resistance, .power,
         .averagePower] :=
    step_congr d1 d2 h4 hlen hflags hstored .averagePower s6
  have s8 : foldCursor d1
        [.averageSpeed, .cadence, .averageCadence, .distance, .resistance, .power,
         .averagePower, .energy]
      = foldCursor d2
        [.averageSpeed, .cadence, .averageCadence, .distance, .resistance, .power,
         .averagePower, .energy] :=
    step_congr d1 d2 h4 hlen hflags hstored .energy s7
  have s9 : foldCursor d1
        [.averageSpeed, .cadence, .averageCadence, .distance, .resistance, .power,
         .averagePower, .energy, .heartRate]
      = foldCursor d2
        [.averageSpeed, .cadence, .averageCadence, .distance, .resistance, .power,
         .averagePower, .energy, .heartRate] :=
    step_congr d1 d2 h4 hlen hflags hstored .heartRate s8
  have s10 : foldCursor d1
        [.averageSpeed, .cadence, .averageCadence, .distance, .resistance, .power,
         .averagePower, .energy, .heartRate, .metabolicEquivalent]
      = foldCursor d2
        [.averageSpeed, .cadence, .averageCadence, .distance, .resistance, .power,
         .averagePower, .energy, .heartRate, .metabolicEquivalent] :=
    step_congr d1 d2 h4 hlen hflags hstored .metabolicEquivalent s9
  exact step_congr d1 d2 h4 hlen hflags hstored .elapsedTime s10

/-- C24: the decoded sample does not depend on data the decoder skips: two buffers of
the same length that agree on the flag bits of the eleven fields (bits 0 and 12..15 may
differ), on the speed bytes and on every byte a block keeps decode to the same sample.
The bytes of the average-speed, average-cadence, average-power and
metabolic-equivalent fields, the energy-per-hour word and the bytes after the last
consumed field are not among the kept bytes. -/
theorem parseIndoorBikeData_ignores_skipped (d1 d2 : QByteArray)
    (hlen : d1.length = d2.length)
    (hflags : ∀ f : Field, f.announced (uint16LE d1 0) = f.announced (uint16LE d2 0))
    (h2 : u8 d1 2 = u8 d2 2) (h3 : u8 d1 3 = u8 d2 3)
    (hstored : ∀ f : Field, ∀ i ∈ storedAt d1 f, u8 d1 i = u8 d2 i) :
    parseIndoorBikeData d1 = parseIndoorBikeData d2 ∧
    storedAt d1 .averageSpeed = [] ∧ storedAt d1 .averageCadence = [] ∧
    storedAt d1 .averagePower = [] ∧ storedAt d1 .metabolicEquivalent = [] ∧
    Field.energy.kept = 2 ∧
    (∀ f : Field, ∀ i ∈ storedAt d1 f, ∃ c g, cursorReaching d1 f = Rd.ok c g ∧
      f.announced (uint16LE d1 0) = true ∧ c.offset + f.width ≤ d1.length ∧
      c.offset ≤ i ∧ i < c.offset + f.kept) := by
  refine ⟨?_, (storedAt_skipped d1).1, (storedAt_skipped d1).2.1, (storedAt_skipped d1).2.2.1,
    (storedAt_skipped d1).2.2.2, rfl, ?_⟩
  · by_cases h4 : 4 ≤ d1.length
    · rw [parseIndoorBikeData_eq_fold d1 h4, parseIndoorBikeData_eq_fold d2 (hlen ▸ h4),
        foldCursor_congr d1 d2 h4 hlen hflags h2 h3 hstored]
    · rw [parseIndoorBikeData_short d1 (by omega), parseIndoorBikeData_short d2 (by omega)]
  · intro f i hi
    exact storedAt_mem d1 f i hi

theorem parseIndoorBikeData_ignores_skipped_witness :
    ([0x56, 0x02, 0x64, 0x00, 0xAA, 0xBB, 0xB4, 0x00, 0x10, 0x27, 0x00, 0xF4, 0x01, 0x46,
        0x99] : QByteArray).length
      = ([0x57, 0x12, 0x64, 0x00, 0x11, 0x22, 0xB4, 0x00, 0x10, 0x27, 0x00, 0xF4, 0x01, 0x46,
        0x77] : QByteArray).length ∧
    ([0x56, 0x02, 0x64, 0x00, 0xAA, 0xBB, 0xB4, 0x00, 0x10, 0x27, 0x00, 0xF4, 0x01, 0x46,
        0x99] : QByteArray)
      ≠ [0x57, 0x12, 0x64, 0x00, 0x11, 0x22, 0xB4, 0x00, 0x10, 0x27, 0x00, 0xF4, 0x01, 0x46,
        0x77] ∧
    parseIndoorBikeData
        [0x56, 0x02, 0x64, 0x00, 0xAA, 0xBB, 0xB4, 0x00, 0x10, 0x27, 0x00, 0xF4, 0x01, 0x46,
          0x99]
      = parseIndoorBikeData
        [0x57, 0x12, 0x64, 0x00, 0x11, 0x22, 0xB4, 0x00, 0x10, 0x27, 0x00, 0xF4, 0x01, 0x46,
          0x77] :=
  ⟨by decide, by decide,
    (parseIndoorBikeData_ignores_skipped
      [0x56, 0x02, 0x64, 0x00, 0xAA, 0xBB, 0xB4, 0x00, 0x10, 0x27, 0x00, 0xF4, 0x01, 0x46,
        0x99]
      [0x57, 0x12, 0x64, 0x00, 0x11, 0x22, 0xB4, 0x00, 0x10, 0x27, 0x00, 0xF4, 0x01, 0x46,
        0x77]
      (by decide) (fun f => by cases f <;> decide) (by decide) (by decide)
      (fun f => by cases f <;> decide)).1⟩

/-! ## The scanner -/

/-- A second `startDeviceDiscovery` during a scan empties the list and calls the agent
again. -/
theorem startDeviceDiscovery_while_scanning :
    exampleScanningManager.isDiscovering = true ∧
    exampleScanningManager.m_discoveredDevices = [exampleTrainer] ∧
    exampleScanningManager.startDeviceDiscovery.m_discoveredDevices = [] ∧
    exampleScanningManager.startDeviceDiscovery ≠ exampleScanningManager ∧
    exampleScanningManager.startDeviceDiscovery.agentCalls
      = [.start LowEnergyMethod, .start LowEnergyMethod] := by
  decide

/-- C22 (as the code has it): `startDeviceDiscovery` carries no already-scanning guard.
From Idle and during a scan alike it empties the discovered-candidate list and calls the
discovery agent's `start` with the Low-Energy method; it emits nothing.  The test on
`isActive()` is on the stop side only: `stopDeviceDiscovery` is a no-op when idle. -/
theorem startDeviceDiscovery_always_clears (m : BluetoothManager) :
    m.startDeviceDiscovery.m_discoveredDevices = [] ∧
    m.startDeviceDiscovery.agentCalls = m.agentCalls ++ [.start LowEnergyMethod] ∧
    m.startDeviceDiscovery.isDiscovering = true ∧
    m.startDeviceDiscovery.emitted = m.emitted ∧
    (m.isDiscovering = false → m.stopDeviceDiscovery = m) :=
  ⟨rfl, rfl, rfl, rfl, fun h => by
    unfold BluetoothManager.isDiscovering at h
    unfold BluetoothManager.stopDeviceDiscovery
    rw [h]
    rfl⟩

theorem startDeviceDiscovery_always_clears_witness :
    BluetoothManager.create.isDiscovering = false ∧
    BluetoothManager.create.stopDeviceDiscovery = BluetoothManager.create ∧
    BluetoothManager.create.startDeviceDiscovery.agentCalls = [.start LowEnergyMethod] :=
  ⟨by decide,
    (startDeviceDiscovery_always_clears BluetoothManager.create).2.2.2.2 (by decide),
    by decide⟩

/-! ## Late callbacks -/

namespace FitnessDevice

theorem stateChanges_raise_error (s : FitnessDevice) (e : QString) :
    (s.raise (.errorOccurred e)).stateChanges = s.stateChanges := by
  simp [stateChanges, raise, List.filterMap_append]

theorem stateChanges_setConnectionState_of_ne (s : FitnessDevice) (state : ConnectionState)
    (h : s.m_connectionState ≠ state) :
    (s.setConnectionState state).stateChanges = s.stateChanges ++ [state] := by
  unfold setConnectionState
  rw [if_neg h]
  simp [stateChanges, raise, List.filterMap_append]

/-- What `onControllerError` does for an error other than `NoError`. -/
theorem onControllerError_eq (s : FitnessDevice) (error : ControllerError)
    (h : error ≠ .NoError) :
    ∃ message, s.onControllerError error
      = (s.setConnectionState .Error).raise (.errorOccurred message) := by
  cases error <;> first | exact absurd rfl h | exact ⟨_, rfl⟩

theorem onServiceStateChanged_invalid (s : FitnessDevice) :
    s.onServiceStateChanged .InvalidService
      = some ((s.raise (.errorOccurred (QString.ofLiteral "Invalid FTMS service"))
          ).setConnectionState .Error) := rfl

end FitnessDevice

/-- Late callbacks on a session that streamed and was then disconnected. -/
theorem late_callbacks_not_discarded :
    exampleDisconnectedSession.m_connectionState = .Disconnected ∧
    (exampleDisconnectedSession.onControllerError .RemoteHostClosedError).m_connectionState
      = .Error ∧
    (exampleDisconnectedSession.onControllerError .RemoteHostClosedError).stateChanges
      = exampleDisconnectedSession.stateChanges ++ [.Error] ∧
    (exampleDisconnectedSession.onControllerError .RemoteHostClosedError).errors
      = [QString.ofLiteral "Remote host closed connection"] ∧
    (exampleDisconnectedSession.onServiceDiscoveryFinished [] none).map
        (fun t => (t.m_connectionState, t.errors))
      = some (.Error, [QString.ofLiteral "FTMS service not found on device"]) ∧
    (exampleDisconnectedSession.onServiceStateChanged .InvalidService).map
        (fun t => (t.m_connectionState, t.errors))
      = some (.Error, [QString.ofLiteral "Invalid FTMS service"]) ∧
    (exampleDisconnectedSession.onCharacteristicChanged exampleIndoorBikeData
        [0x00, 0x00, 0x64, 0x00]).andThen
        (fun t => Rd.ok (t.m_connectionState, t.samples.length) 0)
      = Rd.ok (.Disconnected, 1) 0 := by
  decide

/-- C21 (as the code has it): the callbacks of the session carry no state guard, so on
a Disconnected session a late callback is not discarded.  A controller error other than
NoError, service discovery finished without the FTMS service, and a service state
change to InvalidService each move the session to Error and emit one state-changed and
one error notification; a characteristic change on Indoor-Bike-Data with at least 4
bytes emits a sample.  Left unchanged is the session by controller error NoError, by
the service state RemoteServiceDiscovering, and by a characteristic change on another
characteristic or with fewer than 4 bytes.  `connectToDevice` moves it to Connecting. -/
theorem late_callbacks_on_disconnected (s : FitnessDevice)
    (h : s.m_connectionState = .Disconnected) :
    (∀ error : ControllerError, error ≠ .NoError →
      (s.onControllerError error).m_connectionState = .Error ∧
      (s.onControllerError error).stateChanges = s.stateChanges ++ [.Error] ∧
      ∃ message, (s.onControllerError error).errors = s.errors ++ [message]) ∧
    (∀ (handle : Nat) (services : List QBluetoothUuid)
        (serviceObject : Option QLowEnergyService),
      s.m_controller = some handle →
      QBluetoothUuid.ofString FTMS.SERVICE_UUID ∉ services →
      ∃ t, s.onServiceDiscoveryFinished services serviceObject = some t ∧
        t.m_connectionState = .Error ∧
        t.stateChanges = s.stateChanges ++ [.Error] ∧
        t.errors = s.errors ++ [QString.ofLiteral "FTMS service not found on device"]) ∧
    (∃ t, s.onServiceStateChanged .InvalidService = some t ∧
        t.m_connectionState = .Error ∧
        t.stateChanges = s.stateChanges ++ [.Error] ∧
        t.errors = s.errors ++ [QString.ofLiteral "Invalid FTMS service"]) ∧
    (∀ (characteristic : QLowEnergyCharacteristic) (value : QByteArray),
      characteristic.uuid = QBluetoothUuid.ofString FTMS.INDOOR_BIKE_DATA_UUID →
      4 ≤ value.length →
      ∃ data, parseIndoorBikeData value = Rd.ok data 0 ∧
        s.onCharacteristicChanged characteristic value
          = Rd.ok { s with emitted := s.emitted ++ [.dataReceived data] } 0) ∧
    s.onControllerError .NoError = s ∧
    s.onServiceStateChanged .RemoteServiceDiscovering = some s ∧
    (∀ (characteristic : QLowEnergyCharacteristic) (value : QByteArray),
      characteristic.uuid ≠ QBluetoothUuid.ofString FTMS.INDOOR_BIKE_DATA_UUID ∨
        value.length < 4 →
      s.onCharacteristicChanged characteristic value = Rd.ok s 0) ∧
    s.connectToDevice.m_connectionState = .Connecting := by
  have hne : s.m_connectionState ≠ .Error := by rw [h]; decide
  refine ⟨?_, ?_, ?_, ?_, rfl, rfl, ?_, ?_⟩
  · intro error he
    obtain ⟨message, hm⟩ := FitnessDevice.onControllerError_eq s error he
    rw [hm]
    refine ⟨FitnessDevice.state_setConnectionState s .Error, ?_, message, ?_⟩
    · rw [FitnessDevice.stateChanges_raise_error,
        FitnessDevice.stateChanges_setConnectionState_of_ne s .Error hne]
    · rw [FitnessDevice.errors_raise_error, FitnessDevice.errors_setConnectionState]
  · intro handle services serviceObject hc hn
    refine ⟨_, FitnessDevice.onServiceDiscoveryFinished_absent s handle services
      serviceObject hc hn, FitnessDevice.state_setConnectionState _ _, ?_, ?_⟩
    · rw [FitnessDevice.stateChanges_setConnectionState_of_ne (s.raise _) .Error hne,
        FitnessDevice.stateChanges_raise_error]
    · rw [FitnessDevice.errors_setConnectionState, FitnessDevice.errors_raise_error]
  · refine ⟨_, FitnessDevice.onServiceStateChanged_invalid s,
      FitnessDevice.state_setConnectionState _ _, ?_, ?_⟩
    · rw [FitnessDevice.stateChanges_setConnectionState_of_ne (s.raise _) .Error hne,
        FitnessDevice.stateChanges_raise_error]
    · rw [FitnessDevice.errors_setConnectionState, FitnessDevice.errors_raise_error]
  · intro characteristic value hu h4
    refine ⟨_, parseIndoorBikeData_eq_fold value h4, ?_⟩
    unfold FitnessDevice.onCharacteristicChanged
    rw [if_pos hu, parseIndoorBikeData_eq_fold value h4, Rd.ok_zero_bind]
    rfl
  · intro characteristic value hor
    unfold FitnessDevice.onCharacteristicChanged
    by_cases hu : characteristic.uuid = QBluetoothUuid.ofString FTMS.INDOOR_BIKE_DATA_UUID
    · rcases hor with hx | hx
      · exact absurd hu hx
      · rw [if_pos hu, parseIndoorBikeData_short value hx, Rd.ok_zero_bind]
        rfl
    · rw [if_neg hu]
      rfl
  · simp [FitnessDevice.connectToDevice, FitnessDevice.setConnectionState,
      FitnessDevice.raise, FitnessDevice.issue, h]
    cases s.m_controller <;> rfl

theorem late_callbacks_on_disconnected_witness :
    exampleDisconnectedSession.m_connectionState = .Disconnected ∧
    ((ControllerError.ConnectionError ≠ ControllerError.NoError) ∧
      (exampleDisconnectedSession.onControllerError .ConnectionError).m_connectionState
        = .Error) ∧
    exampleDisconnectedSession.connectToDevice.m_connectionState = .Connecting :=
  ⟨by decide,
   ⟨by decide,
    ((late_callbacks_on_disconnected exampleDisconnectedSession (by decide)).1
      .ConnectionError (by decide)).1⟩,
   (late_callbacks_on_disconnected exampleDisconnectedSession (by decide)).2.2.2.2.2.2.2⟩

end BikeDataOverlay
